import Mathlib

/-!
Verification of the TCP stream-analysis and reassembly engine of
`epan/dissectors/packet-tcp.c` (Wireshark).  The C functions relevant to the
claims are embedded as pure Lean functions over explicit state records:
machine `guint32` arithmetic is `Nat` with explicit reduction modulo `2^32`,
`guint64` time arithmetic is reduced modulo `2^64`, and the per-connection
mutable state (`struct tcp_flow_t`, `struct tcp_analyze_seq_flow_info_t`,
`struct tcp_acked`) becomes immutable records threaded through each step.
-/

/-! ## Machine arithmetic -/

/-- Reduction of a natural number into the `guint32` range. -/
def w32 (n : Nat) : Nat := n % 4294967296

/-- Wrapping 32-bit difference `a - b` (as C `guint32` subtraction). -/
def sub32 (a b : Nat) : Nat := (w32 a + 4294967296 - w32 b) % 4294967296

/-- Wrapping 32-bit sum (as C `guint32` addition). -/
def add32 (a b : Nat) : Nat := w32 (a + b)

/-- Modelled from the spec: `GT_SEQ(x,y)` of `packet-tcp.h` (absent from the
given sources), sequence-space comparison implemented as the signed-difference
test `(gint32)(y - x) < 0` (spec, design notes on wraparound arithmetic). -/
abbrev GT_SEQ (x y : Nat) : Prop := 2147483648 ≤ sub32 y x

/-- Modelled from the spec: `LT_SEQ(x,y)` of `packet-tcp.h`, the signed test
`(gint32)(x - y) < 0`. -/
abbrev LT_SEQ (x y : Nat) : Prop := 2147483648 ≤ sub32 x y

/-- Modelled from the spec: `LE_SEQ(x,y)` of `packet-tcp.h`, the signed test
`(gint32)(x - y) <= 0`. -/
abbrev LE_SEQ (x y : Nat) : Prop := sub32 x y = 0 ∨ 2147483648 ≤ sub32 x y

/-- Modelled from the spec: `EQ_SEQ(x,y)` of `packet-tcp.h`, equality of the
32-bit sequence numbers. -/
abbrev EQ_SEQ (x y : Nat) : Prop := w32 x = w32 y

/-! ## Time values (`nstime_t`) -/

/-- An `nstime_t` value: seconds and nanoseconds, both signed. -/
structure NsTime where
  secs : Int
  nsecs : Int
deriving Repr, DecidableEq

/-- The zero time value (`nstime_set_zero`). -/
def NsTime.zero : NsTime := ⟨0, 0⟩

/-- The `guint64` nanosecond delta `(a.secs - b.secs)*1000000000 + a.nsecs -
b.nsecs` computed by `tcp_analyze_sequence_number` for the fast-retransmission
and out-of-order time windows: unsigned 64-bit arithmetic, so a negative true
delta wraps around to a huge value. -/
def deltaNsU64 (a b : NsTime) : Nat :=
  (((a.secs - b.secs) * 1000000000 + a.nsecs - b.nsecs) % (18446744073709551616 : Int)).toNat

/-- Reduction of a signed nanosecond count into the `guint64` range, used for
the out-of-order threshold `ts_first_rtt.nsecs + ts_first_rtt.secs*10^9`. -/
def toU64 (i : Int) : Nat := (i % (18446744073709551616 : Int)).toNat

/-- The exact (signed) nanosecond difference computed by `nstime_delta`,
used for the RTO delta and the ack latency. -/
def nstimeSub (a b : NsTime) : Int :=
  (a.secs - b.secs) * 1000000000 + a.nsecs - b.nsecs

/-! ## Flag constants (`packet-tcp.c` lines 1328-1347, TCP header flags) -/

def TCP_A_RETRANSMISSION          : Nat := 0x0001
def TCP_A_LOST_PACKET             : Nat := 0x0002
def TCP_A_ACK_LOST_PACKET         : Nat := 0x0004
def TCP_A_KEEP_ALIVE              : Nat := 0x0008
def TCP_A_DUPLICATE_ACK           : Nat := 0x0010
def TCP_A_ZERO_WINDOW             : Nat := 0x0020
def TCP_A_ZERO_WINDOW_PROBE       : Nat := 0x0040
def TCP_A_ZERO_WINDOW_PROBE_ACK   : Nat := 0x0080
def TCP_A_KEEP_ALIVE_ACK          : Nat := 0x0100
def TCP_A_OUT_OF_ORDER            : Nat := 0x0200
def TCP_A_FAST_RETRANSMISSION     : Nat := 0x0400
def TCP_A_WINDOW_UPDATE           : Nat := 0x0800
def TCP_A_WINDOW_FULL             : Nat := 0x1000
def TCP_A_REUSED_PORTS            : Nat := 0x2000
def TCP_A_SPURIOUS_RETRANSMISSION : Nat := 0x4000

def TCP_S_BASE_SEQ_SET : Nat := 0x01
def TCP_S_SAW_SYN      : Nat := 0x03
def TCP_S_SAW_SYNACK   : Nat := 0x05

/-- Modelled from the spec: TCP header flag bits (`TH_*` of `packet-tcp.h`,
absent from the given sources; standard RFC 793 bit layout). -/
def TH_FIN : Nat := 0x0001

def TH_SYN : Nat := 0x0002

def TH_RST : Nat := 0x0004

def TH_PUSH : Nat := 0x0008

def TH_ACK : Nat := 0x0010

/-- Modelled from the spec: the hard cap on the unacked-segment list
(`TCP_MAX_UNACKED_SEGMENTS` of `packet-tcp.h`; the spec records only that the
list length has a hard cap, the numeric value is taken from the header's
published definition). -/
def TCP_MAX_UNACKED_SEGMENTS : Nat := 1000

/-- Modelled from the spec: MSP flag bits (`MSP_FLAGS_*` of `packet-tcp.h`,
absent from the given sources; spec §3 lists the three flags). -/
def MSP_FLAGS_REASSEMBLE_ENTIRE_SEGMENT : Nat := 0x00000001

def MSP_FLAGS_GOT_ALL_SEGMENTS : Nat := 0x00000002

def MSP_FLAGS_MISSING_FIRST_SEGMENT : Nat := 0x00000004

/-- Modelled from the spec: the `TCP_FLOW_REASSEMBLE_UNTIL_FIN` flow flag of
`packet-tcp.h` (spec §4.3 step 5). -/
def TCP_FLOW_REASSEMBLE_UNTIL_FIN : Nat := 0x0001

/-! ## Data model -/

/-- One entry of the unacked-segment list (`tcp_unacked_t`). -/
structure TcpUnacked where
  frame : Nat
  seq : Nat
  nextseq : Nat
  ts : NsTime
deriving Repr, DecidableEq

/-- A multi-segment PDU descriptor (`struct tcp_multisegment_pdu`). -/
structure TcpMultisegmentPdu where
  seq : Nat
  nxtpdu : Nat
  first_frame : Nat
  first_frame_with_seq : Nat
  last_frame : Nat
  last_frame_time : NsTime
  flags : Nat
deriving Repr, DecidableEq

/-- The per-direction sequence-analysis info (`struct
tcp_analyze_seq_flow_info_t`), zero-allocated at conversation creation. -/
structure TcpAnalyzeSeqInfo where
  segments : List TcpUnacked := []
  segment_count : Nat := 0
  dupacknum : Nat := 0
  nextseq : Nat := 0
  maxseqtobeacked : Nat := 0
  nextseqframe : Nat := 0
  nextseqtime : NsTime := NsTime.zero
  lastacktime : NsTime := NsTime.zero
  lastnondupack : Nat := 0
  lastack : Nat := 0
deriving Repr, DecidableEq

/-- One direction of a connection (`tcp_flow_t`), restricted to the fields the
analyzed functions read or write.  Defaults are the values established by
`init_tcp_conversation_data`: `win_scale = -1`, `window = G_MAXUINT32`,
`valid_bif = 1`, everything else zero-allocated. -/
structure TcpFlow where
  base_seq : Nat := 0
  win_scale : Int := -1
  window : Nat := 4294967295
  valid_bif : Bool := true
  push_bytes_sent : Nat := 0
  push_set_last : Bool := false
  scps_capable : Bool := false
  maxsizeacked : Nat := 0
  static_flags : Nat := 0
  lastsegmentflags : Nat := 0
  seqinfo : TcpAnalyzeSeqInfo := {}
  flow_flags : Nat := 0
  fin : Nat := 0
  maxnextseq : Nat := 0
  multisegment_pdus : List (Nat × TcpMultisegmentPdu) := []
deriving Repr, DecidableEq

/-- The per-packet analysis result (`struct tcp_acked`), created zeroed on
demand by `tcp_analyze_get_acked_struct`. -/
structure TcpAcked where
  flags : Nat := 0
  dupack_num : Nat := 0
  dupack_frame : Nat := 0
  rto_ts : Int := 0
  rto_frame : Nat := 0
  frame_acked : Nat := 0
  ts : Int := 0
  bytes_in_flight : Nat := 0
  push_bytes_sent : Nat := 0
deriving Repr, DecidableEq

/-- The state seen by `tcp_analyze_sequence_number`: the forward flow (the
direction of the current segment), the reverse flow, and the per-packet result
slot `tcpd->ta` (`none` until any fact is recorded for this packet). -/
structure SeqAnalysisState where
  fwd : TcpFlow
  rev : TcpFlow
  ta : Option TcpAcked
deriving Repr, DecidableEq

/-- Connection-level context consumed (but not written) by the analysis: the
`tcp_track_bytes_in_flight` preference and `tcpd->ts_first_rtt`. -/
structure SeqAnalysisCtx where
  tcp_track_bytes_in_flight : Bool
  ts_first_rtt : NsTime
deriving Repr, DecidableEq

/-- The per-segment input: `(pinfo->num, pinfo->abs_ts, seq, ack, seglen,
flags, window)`. -/
structure Seg where
  num : Nat
  abs_ts : NsTime
  seq : Nat
  ack : Nat
  seglen : Nat
  window : Nat
  flags : Nat
deriving Repr, DecidableEq

/-- Flags of the per-packet result, 0 when no result was recorded. -/
def taFlags : Option TcpAcked → Nat
  | none => 0
  | some ta => ta.flags

/-- True when the per-packet result exists and carries flag `f`
(the C test `tcpd->ta && (tcpd->ta->flags & f)`). -/
def taHasFlag (ta : Option TcpAcked) (f : Nat) : Prop := taFlags ta &&& f ≠ 0

instance (ta : Option TcpAcked) (f : Nat) : Decidable (taHasFlag ta f) :=
  inferInstanceAs (Decidable (_ ≠ _))

/-- Record flag `f` on the per-packet result, creating the zeroed result first
when absent (`tcp_analyze_get_acked_struct` followed by `ta->flags |= f`). -/
def setTaFlag (ta : Option TcpAcked) (f : Nat) : Option TcpAcked :=
  let a := ta.getD {}
  some { a with flags := a.flags ||| f }

/-! ## `tcp_analyze_sequence_number`, step by step

The function body (lines 1861-2349) is split at its labels and comment
headings; the composition `tcp_analyze_sequence_number` below chains the steps
in source order. -/

/-- Base-sequence capture and `valid_bif` refresh (lines 1875-1904).  The C
code mutates fields in place under nested conditions; here every mutated field
carries its conditional assignment directly: the forward flow's `base_seq` and
`static_flags` when the base is not yet set (SYN's `seq`, else `seq-1`, with
the SAW_SYN/SAW_SYNACK marker), the reverse flow's from `ack-1` on the first
ACK-carrying segment, and the reverse `valid_bif` whenever ACK is set. -/
def tasn_base (seg : Seg) (s : SeqAnalysisState) : SeqAnalysisState :=
  { s with
    fwd := { s.fwd with
      base_seq :=
        if s.fwd.static_flags &&& TCP_S_BASE_SEQ_SET = 0 then
          if seg.flags &&& TH_SYN ≠ 0 then seg.seq else sub32 seg.seq 1
        else s.fwd.base_seq,
      static_flags :=
        if s.fwd.static_flags &&& TCP_S_BASE_SEQ_SET = 0 then
          if seg.flags &&& TH_SYN ≠ 0 then
            (s.fwd.static_flags |||
              (if seg.flags &&& TH_ACK ≠ 0 then TCP_S_SAW_SYNACK else TCP_S_SAW_SYN)) |||
              TCP_S_BASE_SEQ_SET
          else s.fwd.static_flags ||| TCP_S_BASE_SEQ_SET
        else s.fwd.static_flags },
    rev := { s.rev with
      base_seq :=
        if s.rev.static_flags &&& TCP_S_BASE_SEQ_SET = 0 ∧ seg.flags &&& TH_ACK ≠ 0 then
          sub32 seg.ack 1
        else s.rev.base_seq,
      static_flags :=
        if s.rev.static_flags &&& TCP_S_BASE_SEQ_SET = 0 ∧ seg.flags &&& TH_ACK ≠ 0 then
          s.rev.static_flags ||| TCP_S_BASE_SEQ_SET
        else s.rev.static_flags,
      valid_bif := if seg.flags &&& TH_ACK ≠ 0 then true else s.rev.valid_bif } }

/-- The zero-window-probe condition (lines 1912-1914). -/
def zwpCond (seg : Seg) (s : SeqAnalysisState) : Prop :=
  seg.seglen = 1 ∧ seg.seq = s.fwd.seqinfo.nextseq ∧ s.rev.window = 0

instance (seg : Seg) (s : SeqAnalysisState) : Decidable (zwpCond seg s) :=
  inferInstanceAs (Decidable (_ ∧ _ ∧ _))

/-- Zero-window check (lines 1926-1932). -/
def tasn_zero_window (seg : Seg) (s : SeqAnalysisState) : SeqAnalysisState :=
  { s with ta :=
      if seg.window = 0 ∧ seg.flags &&& (TH_RST ||| TH_FIN ||| TH_SYN) = 0 then
        setTaFlag s.ta TCP_A_ZERO_WINDOW
      else s.ta }

/-- The lost-packet condition (lines 1943-1945). -/
def lostCond (seg : Seg) (s : SeqAnalysisState) : Prop :=
  s.fwd.seqinfo.nextseq ≠ 0 ∧ GT_SEQ seg.seq s.fwd.seqinfo.nextseq ∧
    seg.flags &&& TH_RST = 0

instance (seg : Seg) (s : SeqAnalysisState) : Decidable (lostCond seg s) :=
  inferInstanceAs (Decidable (_ ∧ _ ∧ _))

/-- Lost-packet check (lines 1943-1953); also invalidates bytes-in-flight
tracking for the forward flow until the next ACK. -/
def tasn_lost (seg : Seg) (s : SeqAnalysisState) : SeqAnalysisState :=
  { s with
    ta := if lostCond seg s then setTaFlag s.ta TCP_A_LOST_PACKET else s.ta,
    fwd := { s.fwd with
      valid_bif := if lostCond seg s then false else s.fwd.valid_bif } }

/-- The keep-alive condition (lines 1961-1963). -/
def kaCond (seg : Seg) (s : SeqAnalysisState) : Prop :=
  (seg.seglen = 0 ∨ seg.seglen = 1) ∧ seg.seq = sub32 s.fwd.seqinfo.nextseq 1 ∧
    seg.flags &&& (TH_SYN ||| TH_FIN ||| TH_RST) = 0

instance (seg : Seg) (s : SeqAnalysisState) : Decidable (kaCond seg s) :=
  inferInstanceAs (Decidable (_ ∧ _ ∧ _))

/-- Keep-alive check (lines 1961-1968). -/
def tasn_keep_alive (seg : Seg) (s : SeqAnalysisState) : SeqAnalysisState :=
  { s with ta := if kaCond seg s then setTaFlag s.ta TCP_A_KEEP_ALIVE else s.ta }

/-- Window-update check (lines 1974-1984). -/
def tasn_window_update (seg : Seg) (s : SeqAnalysisState) : SeqAnalysisState :=
  { s with ta :=
      if seg.seglen = 0 ∧ seg.window ≠ 0 ∧ seg.window ≠ s.fwd.window ∧
          seg.seq = s.fwd.seqinfo.nextseq ∧ seg.ack = s.fwd.seqinfo.lastack ∧
          seg.flags &&& (TH_SYN ||| TH_FIN ||| TH_RST) = 0 then
        setTaFlag s.ta TCP_A_WINDOW_UPDATE
      else s.ta }

/-- Window-full check (lines 1994-2002): data reaching the edge of the scaled
window advertised by the other side. -/
def tasn_window_full (seg : Seg) (s : SeqAnalysisState) : SeqAnalysisState :=
  { s with ta :=
      if seg.seglen > 0 ∧ s.rev.win_scale ≠ -1 ∧
          add32 seg.seq seg.seglen =
            add32 s.rev.seqinfo.lastack
              (s.rev.window <<<
                (if s.rev.win_scale = -2 then 0 else s.rev.win_scale.toNat)) ∧
          seg.flags &&& (TH_SYN ||| TH_FIN ||| TH_RST) = 0 then
        setTaFlag s.ta TCP_A_WINDOW_FULL
      else s.ta }

/-- The shared zero-length same-seq same-ack equality test of the keep-alive
ACK / duplicate ACK checks, with the nonzero-window equality (lines 2009-2015
and 2048-2053 both contain it). -/
def dupEqCond (seg : Seg) (s : SeqAnalysisState) : Prop :=
  seg.seglen = 0 ∧ seg.window ≠ 0 ∧ seg.window = s.fwd.window ∧
    seg.seq = s.fwd.seqinfo.nextseq ∧ seg.ack = s.fwd.seqinfo.lastack ∧
    seg.flags &&& (TH_SYN ||| TH_FIN ||| TH_RST) = 0

instance (seg : Seg) (s : SeqAnalysisState) : Decidable (dupEqCond seg s) :=
  inferInstanceAs (Decidable (_ ∧ _ ∧ _ ∧ _ ∧ _ ∧ _))

/-- The keep-alive-ACK condition (lines 2009-2015): the duplicate-ACK equality
test plus "last reverse segment was a keep-alive". -/
def kaAckCond (seg : Seg) (s : SeqAnalysisState) : Prop :=
  dupEqCond seg s ∧ s.rev.lastsegmentflags &&& TCP_A_KEEP_ALIVE ≠ 0

instance (seg : Seg) (s : SeqAnalysisState) : Decidable (kaAckCond seg s) :=
  inferInstanceAs (Decidable (_ ∧ _))

/-- The zero-window-probe-ACK condition (lines 2029-2035): as the equality
test but with a zero window, plus "last reverse segment was a probe". -/
def zwpAckCond (seg : Seg) (s : SeqAnalysisState) : Prop :=
  seg.seglen = 0 ∧ seg.window = 0 ∧ seg.window = s.fwd.window ∧
    seg.seq = s.fwd.seqinfo.nextseq ∧ seg.ack = s.fwd.seqinfo.lastack ∧
    s.rev.lastsegmentflags &&& TCP_A_ZERO_WINDOW_PROBE ≠ 0 ∧
    seg.flags &&& (TH_SYN ||| TH_FIN ||| TH_RST) = 0

instance (seg : Seg) (s : SeqAnalysisState) : Decidable (zwpAckCond seg s) :=
  inferInstanceAs (Decidable (_ ∧ _ ∧ _ ∧ _ ∧ _ ∧ _ ∧ _))

/-- Keep-alive-ACK, zero-window-probe-ACK and duplicate-ACK checks (lines
2009-2061).  The first two short-circuit to `finished_fwd`, so the
duplicate-ACK counter only moves when neither fired; the per-field form
records that gating explicitly. -/
def tasn_ackish (seg : Seg) (s : SeqAnalysisState) : SeqAnalysisState :=
  { s with
    fwd := { s.fwd with seqinfo := { s.fwd.seqinfo with
      dupacknum :=
        if ¬ kaAckCond seg s ∧ ¬ zwpAckCond seg s ∧ dupEqCond seg s then
          s.fwd.seqinfo.dupacknum + 1
        else s.fwd.seqinfo.dupacknum } },
    ta :=
      if kaAckCond seg s then setTaFlag s.ta TCP_A_KEEP_ALIVE_ACK
      else if zwpAckCond seg s then setTaFlag s.ta TCP_A_ZERO_WINDOW_PROBE_ACK
      else if dupEqCond seg s then
        some { (setTaFlag s.ta TCP_A_DUPLICATE_ACK).getD {} with
          dupack_num := s.fwd.seqinfo.dupacknum + 1,
          dupack_frame := s.fwd.seqinfo.lastnondupack }
      else s.ta }

/-- The forward-direction classification block (lines 1912-2061): the
zero-window probe short-circuits everything up to `finished_fwd`; otherwise
the remaining checks run in source order. -/
def tasn_classify (seg : Seg) (s : SeqAnalysisState) : SeqAnalysisState :=
  if zwpCond seg s then
    { s with ta := setTaFlag s.ta TCP_A_ZERO_WINDOW_PROBE }
  else
    tasn_ackish seg (tasn_window_full seg (tasn_window_update seg
      (tasn_keep_alive seg (tasn_lost seg (tasn_zero_window seg s)))))

/-- The `finished_fwd` label (lines 2065-2070): reset the duplicate-ACK run
when the ack number changed. -/
def tasn_finished_fwd (seg : Seg) (s : SeqAnalysisState) : SeqAnalysisState :=
  { s with fwd := { s.fwd with seqinfo := { s.fwd.seqinfo with
      lastnondupack :=
        if seg.ack ≠ s.fwd.seqinfo.lastack then seg.num
        else s.fwd.seqinfo.lastnondupack,
      dupacknum :=
        if seg.ack ≠ s.fwd.seqinfo.lastack then 0
        else s.fwd.seqinfo.dupacknum } } }

/-- The ACKed-lost-packet condition (lines 2081-2083). -/
def ackLostCond (seg : Seg) (s : SeqAnalysisState) : Prop :=
  s.rev.seqinfo.maxseqtobeacked ≠ 0 ∧
    GT_SEQ seg.ack s.rev.seqinfo.maxseqtobeacked ∧ seg.flags &&& TH_ACK ≠ 0

instance (seg : Seg) (s : SeqAnalysisState) : Decidable (ackLostCond seg s) :=
  inferInstanceAs (Decidable (_ ∧ _ ∧ _))

/-- ACKed-lost-packet check (lines 2081-2092): an ack beyond the reverse
direction's `maxseqtobeacked`, which is then bumped to `rev.nextseq` so the
indication fires only once. -/
def tasn_ack_lost (seg : Seg) (s : SeqAnalysisState) : SeqAnalysisState :=
  { s with
    ta := if ackLostCond seg s then setTaFlag s.ta TCP_A_ACK_LOST_PACKET else s.ta,
    rev := { s.rev with seqinfo := { s.rev.seqinfo with
      maxseqtobeacked :=
        if ackLostCond seg s then s.rev.seqinfo.nextseq
        else s.rev.seqinfo.maxseqtobeacked } } }

/-- The `seq_not_advanced` predicate of lines 2105-2124: the stored `nextseq`
is known and the segment starts sequence-before it, except that a segment of
more than one byte landing exactly one byte before `nextseq` (the
zero-window-probe-then-data case) is not treated as non-advancing.  Taken as a
function of the forward `nextseq` value it reads. -/
def seq_not_advanced (seg : Seg) (fwdNextseq : Nat) : Prop :=
  (fwdNextseq ≠ 0 ∧ LT_SEQ seg.seq fwdNextseq) ∧
    ¬ (seg.seglen > 1 ∧ sub32 fwdNextseq 1 = seg.seq)

instance (seg : Seg) (n : Nat) : Decidable (seq_not_advanced seg n) :=
  inferInstanceAs (Decidable (_ ∧ _))

/-- The out-of-order time threshold of lines 2152-2156: 3 ms when
`ts_first_rtt` was never set, otherwise the first RTT itself in nanoseconds
(`guint64` arithmetic). -/
def ooo_thres (ctx : SeqAnalysisCtx) : Nat :=
  if ctx.ts_first_rtt.nsecs = 0 ∧ ctx.ts_first_rtt.secs = 0 then 3000000
  else toU64 (ctx.ts_first_rtt.nsecs + ctx.ts_first_rtt.secs * 1000000000)

/-- The per-packet result produced by the retransmission / fast
retransmission / out-of-order / spurious block (lines 2104-2191), gated on
data or SYN/FIN and skipped when the packet was flagged keep-alive; the three
`goto finished_checking_retransmission_type` exits make it a first-match
chain.  `seq_not_advanced` carries the one-byte exception of lines 2122-2124;
the out-of-order threshold is 3 ms when `ts_first_rtt` is unset, else the
first RTT itself (lines 2152-2156). -/
def tasn_retrans_ta (ctx : SeqAnalysisCtx) (seg : Seg) (s : SeqAnalysisState) :
    Option TcpAcked :=
  if seg.seglen > 0 ∨ seg.flags &&& (TH_SYN ||| TH_FIN) ≠ 0 then
    if taHasFlag s.ta TCP_A_KEEP_ALIVE then s.ta
    else
      if seq_not_advanced seg s.fwd.seqinfo.nextseq ∧ 2 ≤ s.rev.seqinfo.dupacknum ∧
          s.rev.seqinfo.lastack = seg.seq ∧
          deltaNsU64 seg.abs_ts s.rev.seqinfo.lastacktime < 20000000 then
        setTaFlag s.ta TCP_A_FAST_RETRANSMISSION
      else if seq_not_advanced seg s.fwd.seqinfo.nextseq ∧
          deltaNsU64 seg.abs_ts s.fwd.seqinfo.nextseqtime < ooo_thres ctx ∧
          s.fwd.seqinfo.nextseq ≠ add32 seg.seq seg.seglen then
        setTaFlag s.ta TCP_A_OUT_OF_ORDER
      else if seg.seglen > 0 ∧ s.rev.seqinfo.lastack ≠ 0 ∧
          LE_SEQ (add32 seg.seq seg.seglen) s.rev.seqinfo.lastack then
        setTaFlag s.ta TCP_A_SPURIOUS_RETRANSMISSION
      else if seq_not_advanced seg s.fwd.seqinfo.nextseq then
        some { (setTaFlag s.ta TCP_A_RETRANSMISSION).getD {} with
          rto_ts := nstimeSub seg.abs_ts s.fwd.seqinfo.nextseqtime,
          rto_frame := s.fwd.seqinfo.nextseqframe }
      else s.ta
  else s.ta

/-- The retransmission-family block as a state step: only `tcpd->ta` moves. -/
def tasn_retrans (ctx : SeqAnalysisCtx) (seg : Seg) (s : SeqAnalysisState) :
    SeqAnalysisState :=
  { s with ta := tasn_retrans_ta ctx seg s }

/-- Whether lines 2196-2213 append the segment to the forward unacked list:
it carries data or SYN/FIN and the list is below its hard cap. -/
def addSegCond (seg : Seg) (s : SeqAnalysisState) : Prop :=
  (seg.seglen ≠ 0 ∨ seg.flags &&& (TH_SYN ||| TH_FIN) ≠ 0) ∧
    s.fwd.seqinfo.segment_count < TCP_MAX_UNACKED_SEGMENTS

instance (seg : Seg) (s : SeqAnalysisState) : Decidable (addSegCond seg s) :=
  inferInstanceAs (Decidable (_ ∧ _))

/-- The candidate next sequence number of lines 2195-2212: `seq+seglen`, plus
one more for SYN/FIN — the extra byte is added inside the block that appends
to the unacked list, hence only when `addSegCond` holds. -/
def tasn_nextseq_cand (seg : Seg) (s : SeqAnalysisState) : Nat :=
  if addSegCond seg s ∧ seg.flags &&& (TH_SYN ||| TH_FIN) ≠ 0 then
    add32 (add32 seg.seq seg.seglen) 1
  else add32 seg.seq seg.seglen

/-- Whether lines 2220-2227 advance `nextseq`: the candidate is
sequence-greater than the stored value (or nothing was stored), and the packet
was not classified a zero-window probe. -/
def nextseqAdvCond (seg : Seg) (s : SeqAnalysisState) : Prop :=
  (GT_SEQ (tasn_nextseq_cand seg s) s.fwd.seqinfo.nextseq ∨
    s.fwd.seqinfo.nextseq = 0) ∧ ¬ taHasFlag s.ta TCP_A_ZERO_WINDOW_PROBE

instance (seg : Seg) (s : SeqAnalysisState) : Decidable (nextseqAdvCond seg s) :=
  inferInstanceAs (Decidable (_ ∧ _))

/-- Whether lines 2232-2236 refresh `maxseqtobeacked`: `seq` equals the stored
value (or nothing was stored), and the packet was not a zero-window probe. -/
def maxSeqCond (seg : Seg) (s : SeqAnalysisState) : Prop :=
  (EQ_SEQ seg.seq s.fwd.seqinfo.maxseqtobeacked ∨
    s.fwd.seqinfo.maxseqtobeacked = 0) ∧ ¬ taHasFlag s.ta TCP_A_ZERO_WINDOW_PROBE

instance (seg : Seg) (s : SeqAnalysisState) : Decidable (maxSeqCond seg s) :=
  inferInstanceAs (Decidable (_ ∧ _))

/-- End-of-processing state mutation (lines 2195-2253): append the segment to
the forward unacked list when `addSegCond` holds (the stored entry's
`nextseq` is the candidate including the SYN/FIN byte), advance `nextseq`
(with frame and time) under `nextseqAdvCond`, refresh `maxseqtobeacked` to
the *updated* `nextseq` under `maxSeqCond` — the C reads `nextseq` at line
2234 after lines 2220-2227 ran — then record window, last ack with its
timestamp, and the packet's flags (0 when no result was recorded). -/
def tasn_update (seg : Seg) (s : SeqAnalysisState) : SeqAnalysisState :=
  let newNextseq :=
    if nextseqAdvCond seg s then tasn_nextseq_cand seg s
    else s.fwd.seqinfo.nextseq
  { s with fwd := { s.fwd with
      window := seg.window,
      lastsegmentflags := taFlags s.ta,
      seqinfo := { s.fwd.seqinfo with
        segments :=
          if addSegCond seg s then
            ⟨seg.num, seg.seq, tasn_nextseq_cand seg s, seg.abs_ts⟩ ::
              s.fwd.seqinfo.segments
          else s.fwd.seqinfo.segments,
        segment_count :=
          if addSegCond seg s then s.fwd.seqinfo.segment_count + 1
          else s.fwd.seqinfo.segment_count,
        nextseq := newNextseq,
        nextseqframe :=
          if nextseqAdvCond seg s then seg.num else s.fwd.seqinfo.nextseqframe,
        nextseqtime :=
          if nextseqAdvCond seg s then seg.abs_ts else s.fwd.seqinfo.nextseqtime,
        maxseqtobeacked :=
          if maxSeqCond seg s then newNextseq else s.fwd.seqinfo.maxseqtobeacked,
        lastack := seg.ack,
        lastacktime := seg.abs_ts } } }

/-- One pass of the ACK-reconciliation loop (lines 2258-2302) over the reverse
direction's unacked list: an entry whose `nextseq` equals the ack is recorded
(ack latency, acked frame) and removed; a partially-acked entry has its `seq`
advanced to the ack and is kept (the C `continue` re-examines it and then
keeps it); an entry beyond the ack is kept; anything else is stale and
removed.  Removed entries feed the SCPS largest-acked-size tracker.  Returns
the surviving list, the updated result slot, the updated `fwd->maxsizeacked`
and the number of removed entries. -/
def tasn_walk (seg : Seg) (scps : Bool) :
    List TcpUnacked → Option TcpAcked → Nat →
      List TcpUnacked × Option TcpAcked × Nat × Nat
  | [], ta, msa => ([], ta, msa, 0)
  | e :: rest, ta, msa =>
    if seg.ack = e.nextseq then
      let ta' : Option TcpAcked :=
        some { ta.getD {} with frame_acked := e.frame, ts := nstimeSub seg.abs_ts e.ts }
      let msa' := if scps ∧ msa < sub32 e.nextseq e.seq then sub32 e.nextseq e.seq else msa
      let r := tasn_walk seg scps rest ta' msa'
      (r.1, r.2.1, r.2.2.1, r.2.2.2 + 1)
    else if GT_SEQ seg.ack e.seq ∧ LE_SEQ seg.ack e.nextseq then
      let r := tasn_walk seg scps rest ta msa
      ({ e with seq := seg.ack } :: r.1, r.2.1, r.2.2.1, r.2.2.2)
    else if GT_SEQ e.nextseq seg.ack then
      let r := tasn_walk seg scps rest ta msa
      (e :: r.1, r.2.1, r.2.2.1, r.2.2.2)
    else
      let msa' := if scps ∧ msa < sub32 e.nextseq e.seq then sub32 e.nextseq e.seq else msa
      let r := tasn_walk seg scps rest ta msa'
      (r.1, r.2.1, r.2.2.1, r.2.2.2 + 1)

/-- ACK reconciliation step: apply `tasn_walk` to the reverse flow's list. -/
def tasn_ack_walk (seg : Seg) (s : SeqAnalysisState) : SeqAnalysisState :=
  let r := tasn_walk seg s.rev.scps_capable s.rev.seqinfo.segments s.ta s.fwd.maxsizeacked
  { s with
    ta := r.2.1,
    fwd := { s.fwd with maxsizeacked := r.2.2.1 },
    rev := { s.rev with seqinfo := { s.rev.seqinfo with
      segments := r.1,
      segment_count := s.rev.seqinfo.segment_count - r.2.2.2 } } }

/-- The in-flight estimate of lines 2309-2322: `max(nextseq) - min(seq)` over
the forward unacked list, each taken relative to `base_seq` in `guint32`
arithmetic, the extremes found with plain unsigned comparisons starting from
the head entry. -/
def bifEstimate (base : Nat) : List TcpUnacked → Nat
  | [] => 0
  | e :: rest =>
    let first := rest.foldl (fun a u => min a (sub32 u.seq base)) (sub32 e.seq base)
    let last := rest.foldl (fun a u => max a (sub32 u.nextseq base)) (sub32 e.nextseq base)
    sub32 last first

/-- The gate of the bytes-in-flight block (line 2308): tracking enabled, the
segment carries payload, the forward unacked list is non-empty and
`valid_bif` holds. -/
def bifCond (ctx : SeqAnalysisCtx) (seg : Seg) (s : SeqAnalysisState) : Prop :=
  ctx.tcp_track_bytes_in_flight ∧ seg.seglen ≠ 0 ∧
    s.fwd.seqinfo.segments ≠ [] ∧ s.fwd.valid_bif

instance (ctx : SeqAnalysisCtx) (seg : Seg) (s : SeqAnalysisState) :
    Decidable (bifCond ctx seg s) :=
  inferInstanceAs (Decidable (_ ∧ _ ∧ _ ∧ _))

/-- The PSH-coalescing counter of lines 2331-2342. -/
def tasn_push_bytes (seg : Seg) (s : SeqAnalysisState) : Nat :=
  if seg.flags &&& TH_PUSH ≠ 0 ∧ ¬ s.fwd.push_set_last then
    add32 s.fwd.push_bytes_sent seg.seglen
  else if seg.flags &&& TH_PUSH ≠ 0 ∧ s.fwd.push_set_last then seg.seglen
  else if s.fwd.push_set_last then seg.seglen
  else add32 s.fwd.push_bytes_sent seg.seglen

/-- The PSH-boundary marker of lines 2331-2342. -/
def tasn_push_set (seg : Seg) (s : SeqAnalysisState) : Bool :=
  if seg.flags &&& TH_PUSH ≠ 0 ∧ ¬ s.fwd.push_set_last then true
  else if seg.flags &&& TH_PUSH ≠ 0 ∧ s.fwd.push_set_last then true
  else if s.fwd.push_set_last then false
  else s.fwd.push_set_last

/-- Bytes-in-flight and PSH-coalescing step (lines 2307-2347), active only
under `bifCond`: the estimate is attached only when it lies strictly between
0 and 2000000000; the push counter and the per-packet copy of it are always
written inside the block. -/
def tasn_bif (ctx : SeqAnalysisCtx) (seg : Seg) (s : SeqAnalysisState) :
    SeqAnalysisState :=
  { s with
    fwd := { s.fwd with
      push_bytes_sent :=
        if bifCond ctx seg s then tasn_push_bytes seg s else s.fwd.push_bytes_sent,
      push_set_last :=
        if bifCond ctx seg s then tasn_push_set seg s else s.fwd.push_set_last },
    ta :=
      if bifCond ctx seg s then
        some { ((if 0 < bifEstimate s.fwd.base_seq s.fwd.seqinfo.segments ∧
                    bifEstimate s.fwd.base_seq s.fwd.seqinfo.segments < 2000000000 then
                  some { s.ta.getD {} with
                    bytes_in_flight := bifEstimate s.fwd.base_seq s.fwd.seqinfo.segments }
                else s.ta)).getD {} with
          push_bytes_sent := tasn_push_bytes seg s }
      else s.ta }

/-- The classification phase: everything up to and including the
retransmission-family block, i.e. the state read by the end-of-processing
mutation of lines 2195-2253. -/
def tasn_pre_update (ctx : SeqAnalysisCtx) (seg : Seg) (s : SeqAnalysisState) :
    SeqAnalysisState :=
  tasn_retrans ctx seg (tasn_ack_lost seg (tasn_finished_fwd seg
    (tasn_classify seg (tasn_base seg s))))

/-- The first-pass sequence analysis `tcp_analyze_sequence_number` (lines
1843-2349), as the composition of the steps above in source order. -/
def tcp_analyze_sequence_number (ctx : SeqAnalysisCtx) (seg : Seg)
    (s : SeqAnalysisState) : SeqAnalysisState :=
  tasn_bif ctx seg (tasn_ack_walk seg (tasn_update seg (tasn_pre_update ctx seg s)))

/-- The state just before the bytes-in-flight block of lines 2304-2347: the
analysis with the final `tasn_bif` step left off.  This is the state whose
forward unacked list and `valid_bif` flag the block reads. -/
def tasn_mid (ctx : SeqAnalysisCtx) (seg : Seg) (s : SeqAnalysisState) :
    SeqAnalysisState :=
  tasn_ack_walk seg (tasn_update seg (tasn_pre_update ctx seg s))

/-! ## The retransmission-family priority chain (claim C1)

`c1_chain` is the first-match chain exactly as the spec words it, taken as a
function of the values the chain reads: the gate (`length>0 ∨ SYN ∨ FIN`, not
flagged keep-alive), `seq_not_advanced` with its one-byte exception, then fast
retransmission / out-of-order / spurious / plain retransmission, parameterized
by the out-of-order time threshold so the spec's `max(3ms, initial_rtt)` and
the code's actual threshold can be compared. -/

/-- The family of flags the retransmission chain can set. -/
def familyMask : Nat :=
  TCP_A_RETRANSMISSION ||| TCP_A_OUT_OF_ORDER ||| TCP_A_FAST_RETRANSMISSION |||
    TCP_A_SPURIOUS_RETRANSMISSION

/-- The initial-RTT sample in nanoseconds (`ts_first_rtt.nsecs +
ts_first_rtt.secs*10^9` as `guint64`). -/
def rttNs (ctx : SeqAnalysisCtx) : Nat :=
  toU64 (ctx.ts_first_rtt.nsecs + ctx.ts_first_rtt.secs * 1000000000)

/-- Whether no initial-RTT sample was recorded (`ts_first_rtt` both zero). -/
def rttUnset (ctx : SeqAnalysisCtx) : Prop :=
  ctx.ts_first_rtt.nsecs = 0 ∧ ctx.ts_first_rtt.secs = 0

instance (ctx : SeqAnalysisCtx) : Decidable (rttUnset ctx) :=
  inferInstanceAs (Decidable (_ ∧ _))

/-- The out-of-order threshold as the spec claims it: `max(3ms, initial_rtt)`. -/
def c1ThresSpec (ctx : SeqAnalysisCtx) : Nat := max 3000000 (rttNs ctx)

/-- The retransmission-family first-match chain of the spec, producing the one
flag it sets (or 0).  `flaggedKA` is the "was flagged keep-alive" gate;
`fwdNextseq`/`fwdNextseqtime` are the forward flow's values and
`revDupacknum`/`revLastack`/`revLastacktime` the reverse flow's values read by
the chain. -/
def c1_chain (thres : Nat) (seg : Seg) (flaggedKA : Bool) (fwdNextseq : Nat)
    (fwdNextseqtime : NsTime) (revDupacknum revLastack : Nat)
    (revLastacktime : NsTime) : Nat :=
  if ¬ (seg.seglen > 0 ∨ seg.flags &&& (TH_SYN ||| TH_FIN) ≠ 0) then 0
  else if flaggedKA then 0
  else
    if seq_not_advanced seg fwdNextseq ∧ 2 ≤ revDupacknum ∧ revLastack = seg.seq ∧
        deltaNsU64 seg.abs_ts revLastacktime < 20000000 then
      TCP_A_FAST_RETRANSMISSION
    else if seq_not_advanced seg fwdNextseq ∧
        deltaNsU64 seg.abs_ts fwdNextseqtime < thres ∧
        fwdNextseq ≠ add32 seg.seq seg.seglen then
      TCP_A_OUT_OF_ORDER
    else if seg.seglen > 0 ∧ revLastack ≠ 0 ∧
        LE_SEQ (add32 seg.seq seg.seglen) revLastack then
      TCP_A_SPURIOUS_RETRANSMISSION
    else if seq_not_advanced seg fwdNextseq then TCP_A_RETRANSMISSION
    else 0

/-- The chain applied at a pre-call analysis state: the keep-alive gate is the
flag the classification records for this packet, equivalent (for a fresh
per-packet slot) to the keep-alive condition holding and the zero-window-probe
short-circuit not firing. -/
def c1ChainAt (thres : Nat) (seg : Seg) (s : SeqAnalysisState) : Nat :=
  c1_chain thres seg (decide (¬ zwpCond seg s ∧ kaCond seg s))
    s.fwd.seqinfo.nextseq s.fwd.seqinfo.nextseqtime s.rev.seqinfo.dupacknum
    s.rev.seqinfo.lastack s.rev.seqinfo.lastacktime

/-! ## The end-of-call state mutation as claim C4 words it -/

/-- Sequence-space maximum: `b` unless `a` is sequence-greater. -/
def seqMax (a b : Nat) : Nat := if GT_SEQ a b then a else b

/-- The post-state relation claim C4 asserts: window/lastack/lastacktime/
lastsegmentflags stored unconditionally, and both `nextseq` and
`maxseqtobeacked` advanced to `max(current, seq+length[+1 for SYN/FIN])` in
sequence-space order unless the packet was classified zero-window-probe. -/
def c4ClaimPost (seg : Seg) (s s' : SeqAnalysisState) : Prop :=
  let cand :=
    if seg.flags &&& (TH_SYN ||| TH_FIN) ≠ 0 then add32 (add32 seg.seq seg.seglen) 1
    else add32 seg.seq seg.seglen
  s'.fwd.window = seg.window ∧
  s'.fwd.seqinfo.lastack = seg.ack ∧
  s'.fwd.seqinfo.lastacktime = seg.abs_ts ∧
  s'.fwd.lastsegmentflags = taFlags s'.ta ∧
  (if taHasFlag s'.ta TCP_A_ZERO_WINDOW_PROBE then
    s'.fwd.seqinfo.nextseq = s.fwd.seqinfo.nextseq ∧
    s'.fwd.seqinfo.maxseqtobeacked = s.fwd.seqinfo.maxseqtobeacked
  else
    s'.fwd.seqinfo.nextseq = seqMax cand s.fwd.seqinfo.nextseq ∧
    s'.fwd.seqinfo.maxseqtobeacked = seqMax cand s.fwd.seqinfo.maxseqtobeacked)

instance (seg : Seg) (s s' : SeqAnalysisState) : Decidable (c4ClaimPost seg s s') := by
  unfold c4ClaimPost
  infer_instance

/-- The candidate `nextseq` value the code actually uses: the SYN/FIN extra
byte is added only inside the block that appends to the unacked list, hence
only when the list is below its cap. -/
def c4CandCode (seg : Seg) (s : SeqAnalysisState) : Nat :=
  if ((seg.seglen ≠ 0 ∨ seg.flags &&& (TH_SYN ||| TH_FIN) ≠ 0) ∧
      s.fwd.seqinfo.segment_count < TCP_MAX_UNACKED_SEGMENTS) ∧
      seg.flags &&& (TH_SYN ||| TH_FIN) ≠ 0 then
    add32 (add32 seg.seq seg.seglen) 1
  else add32 seg.seq seg.seglen

/-! ## MPTCP token and IDSN derivation (claim C5)

`mptcp_cryptodata_sha1` (lines 2556-2571) writes the 64-bit key into a buffer
big-endian (`GUINT64_TO_BE`), hashes those 8 bytes with SHA-1 through the
external libgcrypt (`gcry_md_hash_buffer(GCRY_MD_SHA1, ...)`), and reads the
token as the big-endian 32-bit word at the start of the digest and the IDSN as
the big-endian 64-bit word in the digest's last 8 bytes.  The external SHA-1
itself is not code of this repository; it is modelled as an arbitrary function
from the 8-byte message to a 20-byte digest. -/

/-- Modelled from the spec: the SHA-1 digest length `HASH_SHA1_LENGTH` (20
bytes) of `wsutil/wsgcrypt.h`, absent from the given sources. -/
def HASH_SHA1_LENGTH : Nat := 20

/-- The 8 big-endian bytes of a 64-bit value (`GUINT64_TO_BE` written to
memory). -/
def phton64 (k : Nat) : List Nat :=
  [k / 2^56 % 256, k / 2^48 % 256, k / 2^40 % 256, k / 2^32 % 256,
   k / 2^24 % 256, k / 2^16 % 256, k / 2^8 % 256, k % 256]

/-- Big-endian decoding of a byte list (`GUINT32_FROM_BE`/`GUINT64_FROM_BE` of
bytes read from memory). -/
def pntohN : List Nat → Nat
  | [] => 0
  | b :: rest => b * 256 ^ rest.length + pntohN rest

/-- `mptcp_cryptodata_sha1` (lines 2556-2571), parameterized by the external
SHA-1 implementation: hash the big-endian key bytes, then `token` is the first
4 digest bytes big-endian and `idsn` the last 8 digest bytes big-endian. -/
def mptcp_cryptodata_sha1 (sha1 : List Nat → List Nat) (key : Nat) :
    Nat × Nat :=
  let digest := sha1 (phton64 key)
  (pntohN (digest.take 4), pntohN (digest.drop (HASH_SHA1_LENGTH - 8)))

/-! ## The duplicate-delivery check of `desegment_tcp` (claim C2)

`desegment_tcp` (lines 3047-3151 for the branch at issue) is modelled up to
and including the points where it either returns without touching the
per-flow `multisegment_pdus` index, or calls the subdissector / mutates the
index.  The fragment table and subdissector are external collaborators; their
responses are inputs to the model. -/

/-- Exact lookup in a `wmem_tree` keyed by a 32-bit integer; insertion conses,
so the most recent insert for a key wins. -/
def wmem_tree_lookup32 {α : Type} (t : List (Nat × α)) (k : Nat) : Option α :=
  (t.find? (fun p => p.1 = k)).map (·.2)

/-- Largest-key-at-most lookup (`wmem_tree_lookup32_le`): the entry with the
greatest key `≤ k`, earlier entries winning ties. -/
def wmem_tree_lookup32_le {α : Type} (t : List (Nat × α)) (k : Nat) :
    Option (Nat × α) :=
  t.foldl (fun best p =>
    if p.1 ≤ k then
      match best with
      | none => some p
      | some b => if b.1 < p.1 then some p else best
    else best) none

/-- Insertion into a `wmem_tree` (`wmem_tree_insert32`). -/
def wmem_tree_insert32 {α : Type} (t : List (Nat × α)) (k : Nat) (v : α) :
    List (Nat × α) :=
  (k, v) :: t

/-- What the modelled prefix of `desegment_tcp` did with the segment. -/
inductive DesegAction where
  /-- Early return of lines 3099-3151: data shown as already-reassembled
  (`isRetransmission` = the frame is neither `first_frame` nor
  `first_frame_with_seq`), subdissector not called. -/
  | alreadyReassembled (isRetransmission : Bool)
  /-- Early return of lines 3169-3176: sequence analysis flagged the segment a
  retransmission, data shown as retransmitted segment data. -/
  | flaggedRetransmission
  /-- The segment continued into the main reassembly path; `calledDissector`
  records whether the subdissector ran for it on this path. -/
  | proceeded (calledDissector : Bool)
deriving Repr, DecidableEq

/-- Result of the modelled `desegment_tcp` prefix: the action taken and the
flow's MSP index afterwards. -/
structure DesegResult where
  action : DesegAction
  mpdus : List (Nat × TcpMultisegmentPdu)
deriving Repr, DecidableEq

/-- External inputs of one `desegment_tcp` call: the first-pass gate
(`!PINFO_FD_VISITED`), the two preferences gating out-of-order reassembly,
whether sequence analysis flagged this packet `TCP_A_RETRANSMISSION`, the
fragment-table answer of `missing_segments` (whether a gap exists in the MSP's
fragments below this segment), and whether `fragment_add` reported the MSP
complete and reassembled on this frame. -/
structure DesegEnv where
  first_pass : Bool
  tcp_desegment : Bool
  tcp_reassemble_out_of_order : Bool
  ta_retransmission : Bool
  missing_segs : Bool
  frag_complete : Bool
deriving Repr, DecidableEq

/-- The continuation of `desegment_tcp` past the two early returns (lines
3183-3350): out-of-order MSP extension or placeholder creation (both mutate
the MSP index), then either the covering-MSP path (lines 3236-3308, updating
the MSP's `last_frame` bookkeeping and calling the subdissector when the
fragment table completed reassembly on this frame) or the direct subdissector
call of lines 3309-3350.  The `maxnextseq` high-water update of lines
3229-3233 mutates the flow but not the index and is left out of the result. -/
def desegment_tcp_main (env : DesegEnv) (num : Nat) (abs_ts : NsTime)
    (seq nxtseq : Nat) (flow : TcpFlow) (msp0 : Option TcpMultisegmentPdu)
    (mpdus : List (Nat × TcpMultisegmentPdu)) : DesegResult :=
  let reassemble_ooo := env.tcp_desegment ∧ env.tcp_reassemble_out_of_order
  let oooActive := reassemble_ooo ∧ env.first_pass ∧ flow.maxnextseq ≠ 0
  let hasGap := LT_SEQ flow.maxnextseq seq
  let placeholder : TcpMultisegmentPdu :=
    { seq := flow.maxnextseq, nxtpdu := nxtseq, first_frame := num,
      first_frame_with_seq := num, last_frame := num, last_frame_time := abs_ts,
      flags := MSP_FLAGS_MISSING_FIRST_SEGMENT }
  let step :=
    if oooActive then
      match msp0 with
      | some m =>
        if m.flags &&& MSP_FLAGS_GOT_ALL_SEGMENTS = 0 ∧ env.missing_segs then
          let m' := if LT_SEQ m.nxtpdu nxtseq then { m with nxtpdu := nxtseq } else m
          (some m', mpdus.map (fun p => if p.1 = m.seq then (p.1, m') else p))
        else if m.flags &&& MSP_FLAGS_GOT_ALL_SEGMENTS ≠ 0 ∧ hasGap then
          (some placeholder, wmem_tree_insert32 mpdus flow.maxnextseq placeholder)
        else (msp0, mpdus)
      | none =>
        if hasGap then
          (some placeholder, wmem_tree_insert32 mpdus flow.maxnextseq placeholder)
        else (none, mpdus)
    else (msp0, mpdus)
  match step.1 with
  | some m =>
    if m.seq ≤ seq ∧ seq < m.nxtpdu then
      let m' := if env.first_pass then
          { m with last_frame := num, last_frame_time := abs_ts } else m
      { action := .proceeded env.frag_complete,
        mpdus := step.2.map (fun p => if p.1 = m.seq then (p.1, m') else p) }
    else { action := .proceeded true, mpdus := step.2 }
  | none => { action := .proceeded true, mpdus := step.2 }

/-- The decision prefix of `desegment_tcp` (lines 3047-3350): first the
duplicate-delivery early return (an MSP keyed exactly at `seq` whose `nxtpdu`
covers the whole segment, with its first segment known and this frame not its
`last_frame`), then the analysis-flagged-retransmission early return, then the
main reassembly path. -/
def desegment_tcp_decide (env : DesegEnv) (num : Nat) (abs_ts : NsTime)
    (seq nxtseq : Nat) (flow : TcpFlow) : DesegResult :=
  let mpdus := flow.multisegment_pdus
  match wmem_tree_lookup32 mpdus seq with
  | some msp =>
    if nxtseq ≤ msp.nxtpdu ∧ msp.flags &&& MSP_FLAGS_MISSING_FIRST_SEGMENT = 0 ∧
        msp.last_frame ≠ num then
      { action := .alreadyReassembled
          (¬ (msp.first_frame = num ∨ msp.first_frame_with_seq = num)),
        mpdus := mpdus }
    else if env.ta_retransmission then
      { action := .flaggedRetransmission, mpdus := mpdus }
    else
      desegment_tcp_main env num abs_ts seq nxtseq flow (some msp) mpdus
  | none =>
    if env.ta_retransmission then
      { action := .flaggedRetransmission, mpdus := mpdus }
    else
      desegment_tcp_main env num abs_ts seq nxtseq flow
        ((wmem_tree_lookup32_le mpdus (sub32 seq 1)).map (·.2)) mpdus

/-! ## The reassemble-until-FIN close-out in `dissect_tcp` (claim C7) -/

/-- Outcome of the FIN close-out block. -/
structure FinCheckResult where
  fin : Nat
  delivered : Bool
  finRetransReported : Bool
deriving Repr, DecidableEq

/-- The FIN handling of `dissect_tcp` (lines 6649-6709): on a flow flagged
`TCP_FLOW_REASSEMBLE_UNTIL_FIN`, a FIN-bearing segment whose frame is the
first FIN seen (or the recorded one re-visited) records the frame as the
flow's FIN, looks up the MSP at or before `seq - 1`, feeds the final chunk to
the fragment table (external; `frag_completes` is its completion answer) and
delivers the reassembled stream to the subdissector; a FIN in any other frame
is reported as a retransmission of the final FIN and nothing is delivered. -/
def dissect_tcp_fin_check (have_seglen : Bool) (flags : Nat) (num seq : Nat)
    (flow : TcpFlow) (frag_completes : Bool) : FinCheckResult :=
  if have_seglen ∧ flags &&& TH_FIN ≠ 0 ∧
      flow.flow_flags &&& TCP_FLOW_REASSEMBLE_UNTIL_FIN ≠ 0 then
    if flow.fin = 0 ∨ flow.fin = num then
      match wmem_tree_lookup32_le flow.multisegment_pdus (sub32 seq 1) with
      | some _ => { fin := num, delivered := frag_completes, finRetransReported := false }
      | none => { fin := num, delivered := false, finRetransReported := false }
    else { fin := flow.fin, delivered := false, finRetransReported := true }
  else { fin := flow.fin, delivered := false, finRetransReported := false }

/-! ## The PDU-at-a-time loop of `tcp_dissect_pdus` (claim C9) -/

/-- Fixed inputs of `tcp_dissect_pdus`: the tvb's reported and captured
lengths, the desegmentation gates and the fixed header length. -/
structure PduCtx where
  reportedLen : Int
  capturedLen : Int
  proto_desegment : Bool
  can_desegment : Bool
  fixed_len : Nat
deriving Repr, DecidableEq

/-- Observable events of the loop, in order. -/
inductive PduEvent where
  /-- `tvb_ensure_captured_length_remaining` raised (nothing captured). -/
  | capturedExhausted (off : Int)
  /-- Fixed-length part split across segments: desegment request, return. -/
  | needMoreFixed (off : Int)
  /-- `get_pdu_len` returned 0: desegment one more segment, return. -/
  | zeroLength (off : Int)
  /-- `plen < fixed_len`: reported-bounds error, return. -/
  | boundsError (off : Int)
  /-- PDU split across segments: desegment request, return. -/
  | needMoreData (off : Int)
  /-- One PDU dissected at this offset with this declared length. -/
  | dissected (off : Int) (plen : Nat)
deriving Repr, DecidableEq

/-- The C statement `offset += plen` where `offset` is a 32-bit `int` and
`plen` a 32-bit `guint`: unsigned wraparound addition, result reinterpreted as
signed. -/
def wrapAddInt32 (off : Int) (plen : Nat) : Int :=
  let r := ((off % 4294967296).toNat + plen) % 4294967296
  if r < 2147483648 then (r : Int) else (r : Int) - 4294967296

/-- The `while` loop of `tcp_dissect_pdus` (lines 3668-3842) with an explicit
fuel argument; the returned Bool is `false` only when the fuel ran out before
the loop finished (the fuel-adequacy theorem shows enough fuel always exists).
Events mirror the loop's observable actions in source order; the
`want_pdu_tracking` hint of lines 3742-3749 has no control-flow effect and is
omitted. -/
def tcp_dissect_pdus_loop (ctx : PduCtx) (get_pdu_len : Int → Nat) :
    Nat → Int → List PduEvent × Bool
  | 0, _ => ([], false)
  | fuel + 1, offset =>
    if ctx.reportedLen - offset > 0 then
      if ctx.capturedLen - offset ≤ 0 then ([.capturedExhausted offset], true)
      else if ctx.proto_desegment ∧ ctx.can_desegment ∧
          ctx.capturedLen - offset < (ctx.fixed_len : Int) then
        ([.needMoreFixed offset], true)
      else if w32 (get_pdu_len offset) = 0 then ([.zeroLength offset], true)
      else if w32 (get_pdu_len offset) < ctx.fixed_len then ([.boundsError offset], true)
      else if ctx.proto_desegment ∧ ctx.can_desegment ∧
          ctx.capturedLen - offset < (w32 (get_pdu_len offset) : Int) then
        ([.needMoreData offset], true)
      else if wrapAddInt32 offset (w32 (get_pdu_len offset)) ≤ offset then
        ([.dissected offset (w32 (get_pdu_len offset))], true)
      else
        let r := tcp_dissect_pdus_loop ctx get_pdu_len fuel
          (wrapAddInt32 offset (w32 (get_pdu_len offset)))
        (.dissected offset (w32 (get_pdu_len offset)) :: r.1, r.2)
    else ([], true)

/-- `tcp_dissect_pdus`, with fuel sufficient for the whole tvb. -/
def tcp_dissect_pdus (ctx : PduCtx) (get_pdu_len : Int → Nat) :
    List PduEvent × Bool :=
  tcp_dissect_pdus_loop ctx get_pdu_len (ctx.reportedLen.toNat + 1) 0

/-- The offsets at which the loop dissected a PDU. -/
def dissectedOffsets : List PduEvent → List Int
  | [] => []
  | .dissected off _ :: rest => off :: dissectedOffsets rest
  | _ :: rest => dissectedOffsets rest

/-! ## Concrete inputs used by the scenario claims, witnesses and
counterexamples -/

/-- Analysis context with bytes-in-flight tracking off and no RTT sample. -/
def ctxBase : SeqAnalysisCtx := ⟨false, NsTime.zero⟩

/-- Fresh connection state: two default flows, no per-packet result. -/
def stFresh : SeqAnalysisState := ⟨{}, {}, none⟩

/-- Handshake scenario (claim C6): `SYN(seq=100)`. -/
def hsSeg1 : Seg := ⟨1, ⟨0, 0⟩, 100, 0, 0, 8192, TH_SYN⟩

/-- Handshake scenario: `SYN/ACK(seq=500, ack=101)`. -/
def hsSeg2 : Seg := ⟨2, ⟨0, 100000000⟩, 500, 101, 0, 8192, TH_SYN ||| TH_ACK⟩

/-- Handshake scenario: final `ACK(seq=101, ack=501)`. -/
def hsSeg3 : Seg := ⟨3, ⟨0, 200000000⟩, 101, 501, 0, 8192, TH_ACK⟩

/-- State after the handshake SYN (client direction forward). -/
def hsSt1 : SeqAnalysisState := tcp_analyze_sequence_number ctxBase hsSeg1 stFresh

/-- State after the SYN/ACK (server direction forward, flows swapped). -/
def hsSt2 : SeqAnalysisState :=
  tcp_analyze_sequence_number ctxBase hsSeg2 ⟨hsSt1.rev, hsSt1.fwd, none⟩

/-- State after the final ACK (client direction forward again). -/
def hsSt3 : SeqAnalysisState :=
  tcp_analyze_sequence_number ctxBase hsSeg3 ⟨hsSt2.rev, hsSt2.fwd, none⟩

/-- Duplicate-segment scenario (claim C8): data segment `seq=101, len=50,
ack=501`. -/
def c8Seg1 : Seg := ⟨1, ⟨0, 0⟩, 101, 501, 50, 8192, TH_ACK⟩

/-- Second occurrence of the same segment, one second later. -/
def c8Seg2 : Seg := ⟨2, ⟨1, 0⟩, 101, 501, 50, 8192, TH_ACK⟩

/-- Third occurrence of the same segment, two seconds in. -/
def c8Seg3 : Seg := ⟨3, ⟨2, 0⟩, 101, 501, 50, 8192, TH_ACK⟩

/-- State after the first data segment (`nextseq` becomes 151). -/
def c8St1 : SeqAnalysisState := tcp_analyze_sequence_number ctxBase c8Seg1 stFresh

/-- State after the second occurrence. -/
def c8St2 : SeqAnalysisState :=
  tcp_analyze_sequence_number ctxBase c8Seg2 ⟨c8St1.fwd, c8St1.rev, none⟩

/-- State after the third occurrence. -/
def c8St3 : SeqAnalysisState :=
  tcp_analyze_sequence_number ctxBase c8Seg3 ⟨c8St2.fwd, c8St2.rev, none⟩

/-- Counterexample context for claim C1: an initial RTT sample of 1 ms. -/
def c1Ctx : SeqAnalysisCtx := ⟨false, ⟨0, 1000000⟩⟩

/-- Counterexample segment for claim C1: a 10-byte data segment repeating old
data 2 ms after the forward `nextseqtime`. -/
def c1Seg : Seg := ⟨2, ⟨0, 2000000⟩, 101, 0, 10, 8192, 0⟩

/-- Counterexample state for claim C1: forward `nextseq` already at 151 with
`nextseqtime` zero; reverse direction quiet. -/
def c1St : SeqAnalysisState :=
  ⟨{ seqinfo := { nextseq := 151, maxseqtobeacked := 151 } }, {}, none⟩

/-- Counterexample state A for claim C4: forward flow established up to 151. -/
def c4StA : SeqAnalysisState :=
  ⟨{ seqinfo := { nextseq := 151, maxseqtobeacked := 151 } }, {}, none⟩

/-- Counterexample segment A for claim C4: a segment beyond the expected
`nextseq` (a hole), whose `seq` does not match `maxseqtobeacked`. -/
def c4SegA : Seg := ⟨2, ⟨1, 0⟩, 300, 0, 50, 8192, 0⟩

/-- Counterexample state B for claim C4: the forward unacked list at its hard
cap. -/
def c4StB : SeqAnalysisState :=
  ⟨{ seqinfo := { segments := List.replicate 1000 ⟨1, 101, 151, NsTime.zero⟩,
                  segment_count := 1000,
                  nextseq := 151, maxseqtobeacked := 100 } }, {}, none⟩

/-- Counterexample segment B for claim C4: a FIN-bearing data segment arriving
while the list is at its cap. -/
def c4SegB : Seg := ⟨2, ⟨1, 0⟩, 200, 0, 50, 8192, TH_FIN⟩

/-- Witness context for claim C10: bytes-in-flight tracking enabled. -/
def c10Ctx : SeqAnalysisCtx := ⟨true, NsTime.zero⟩

/-- Witness segment for claim C10: 50 bytes of data on a fresh flow. -/
def c10Seg : Seg := ⟨1, ⟨0, 0⟩, 101, 0, 50, 8192, 0⟩

/-- A completed MSP for the claim C2 witness: bytes 1000-1400, first seen in
frame 5, last touched by frame 9. -/
def c2Msp : TcpMultisegmentPdu := ⟨1000, 1400, 5, 5, 9, ⟨0, 0⟩, 0⟩

/-- Witness flow for claim C2: one completed MSP keyed at 1000. -/
def c2Flow : TcpFlow := { multisegment_pdus := [(1000, c2Msp)] }

/-- Witness environment for claim C2: first pass, in-order preferences. -/
def c2Env : DesegEnv := ⟨true, true, false, false, false, false⟩

/-- Witness MSP for claim C7: an open until-FIN reassembly from 2000. -/
def c7Msp : TcpMultisegmentPdu :=
  ⟨2000, 2001, 4, 4, 6, ⟨0, 0⟩, MSP_FLAGS_REASSEMBLE_ENTIRE_SEGMENT⟩

/-- Witness flow for claim C7: flagged reassemble-until-FIN, no FIN yet. -/
def c7Flow : TcpFlow :=
  { flow_flags := TCP_FLOW_REASSEMBLE_UNTIL_FIN,
    multisegment_pdus := [(2000, c7Msp)] }

/-- Witness flow for the retransmitted-FIN half of claim C7: FIN recorded in
frame 4. -/
def c7FlowFin : TcpFlow :=
  { flow_flags := TCP_FLOW_REASSEMBLE_UNTIL_FIN, fin := 4,
    multisegment_pdus := [(2000, c7Msp)] }

/-- Witness context for claim C9: a 10-byte tvb, fully captured, no
desegmentation. -/
def c9Ctx : PduCtx := ⟨10, 10, false, false, 0⟩

/-- Witness PDU-length callback for claim C9: a declared length of
`2^32 - 5`, so that adding it to any small offset wraps the 32-bit sum. -/
def c9Gpl : Int → Nat := fun _ => 4294967291

/-- Witness stand-in for the external SHA-1 of claim C5: some fixed 20-byte
digest. -/
def c5Hash : List Nat → List Nat := fun _ => List.range HASH_SHA1_LENGTH

/-- The bytes-in-flight field of the per-packet result, 0 when absent. -/
def taBytes (ta : Option TcpAcked) : Nat := (ta.getD {}).bytes_in_flight

/-- Pure duplicate-ACK scenario (claim C8, corrected): a zero-length ACK
repeating `seq=151, ack=501` with the window unchanged, one second after the
data segment. -/
def c8AckSeg2 : Seg := ⟨2, ⟨1, 0⟩, 151, 501, 0, 8192, TH_ACK⟩

/-- Second identical zero-length ACK. -/
def c8AckSeg3 : Seg := ⟨3, ⟨2, 0⟩, 151, 501, 0, 8192, TH_ACK⟩

/-- State after the first zero-length duplicate ACK. -/
def c8AckSt2 : SeqAnalysisState :=
  tcp_analyze_sequence_number ctxBase c8AckSeg2 ⟨c8St1.fwd, c8St1.rev, none⟩

/-- State after the second zero-length duplicate ACK. -/
def c8AckSt3 : SeqAnalysisState :=
  tcp_analyze_sequence_number ctxBase c8AckSeg3 ⟨c8AckSt2.fwd, c8AckSt2.rev, none⟩

/-! ## Bitmask and per-packet-result helper lemmas -/

lemma nat_and_or_right (a b m : Nat) : (a ||| b) &&& m = (a &&& m) ||| (b &&& m) := by
  rw [Nat.and_comm, Nat.and_or_distrib_left, Nat.and_comm m a, Nat.and_comm m b]

lemma or_and_of_and_zero {f c m : Nat} (hm : c &&& m = 0) :
    (f ||| c) &&& m = f &&& m := by
  rw [nat_and_or_right, hm, Nat.or_zero]

lemma taFlags_setTaFlag (ta : Option TcpAcked) (c : Nat) :
    taFlags (setTaFlag ta c) = taFlags ta ||| c := by
  cases ta <;> simp [setTaFlag, taFlags]

lemma ite_ta_and {c : Prop} [Decidable c] {ta : Option TcpAcked} {f m : Nat}
    (hm : f &&& m = 0) :
    taFlags (if c then setTaFlag ta f else ta) &&& m = taFlags ta &&& m := by
  split
  · rw [taFlags_setTaFlag, or_and_of_and_zero hm]
  · rfl

/-! ## Masked-flag preservation through the classification steps -/

lemma tasn_zero_window_and (seg : Seg) (s : SeqAnalysisState) (m : Nat)
    (hm : TCP_A_ZERO_WINDOW &&& m = 0) :
    taFlags (tasn_zero_window seg s).ta &&& m = taFlags s.ta &&& m :=
  ite_ta_and hm

lemma tasn_lost_and (seg : Seg) (s : SeqAnalysisState) (m : Nat)
    (hm : TCP_A_LOST_PACKET &&& m = 0) :
    taFlags (tasn_lost seg s).ta &&& m = taFlags s.ta &&& m :=
  ite_ta_and hm

lemma tasn_keep_alive_and (seg : Seg) (s : SeqAnalysisState) (m : Nat)
    (hm : TCP_A_KEEP_ALIVE &&& m = 0) :
    taFlags (tasn_keep_alive seg s).ta &&& m = taFlags s.ta &&& m :=
  ite_ta_and hm

lemma tasn_window_update_and (seg : Seg) (s : SeqAnalysisState) (m : Nat)
    (hm : TCP_A_WINDOW_UPDATE &&& m = 0) :
    taFlags (tasn_window_update seg s).ta &&& m = taFlags s.ta &&& m :=
  ite_ta_and hm

lemma tasn_window_full_and (seg : Seg) (s : SeqAnalysisState) (m : Nat)
    (hm : TCP_A_WINDOW_FULL &&& m = 0) :
    taFlags (tasn_window_full seg s).ta &&& m = taFlags s.ta &&& m :=
  ite_ta_and hm

lemma tasn_ack_lost_and (seg : Seg) (s : SeqAnalysisState) (m : Nat)
    (hm : TCP_A_ACK_LOST_PACKET &&& m = 0) :
    taFlags (tasn_ack_lost seg s).ta &&& m = taFlags s.ta &&& m :=
  ite_ta_and hm

lemma tasn_ackish_and (seg : Seg) (s : SeqAnalysisState) (m : Nat)
    (h1 : TCP_A_KEEP_ALIVE_ACK &&& m = 0)
    (h2 : TCP_A_ZERO_WINDOW_PROBE_ACK &&& m = 0)
    (h3 : TCP_A_DUPLICATE_ACK &&& m = 0) :
    taFlags (tasn_ackish seg s).ta &&& m = taFlags s.ta &&& m := by
  show taFlags
      (if kaAckCond seg s then setTaFlag s.ta TCP_A_KEEP_ALIVE_ACK
       else if zwpAckCond seg s then setTaFlag s.ta TCP_A_ZERO_WINDOW_PROBE_ACK
       else if dupEqCond seg s then
         some { (setTaFlag s.ta TCP_A_DUPLICATE_ACK).getD {} with
           dupack_num := s.fwd.seqinfo.dupacknum + 1,
           dupack_frame := s.fwd.seqinfo.lastnondupack }
       else s.ta) &&& m = taFlags s.ta &&& m
  split
  · rw [taFlags_setTaFlag, or_and_of_and_zero h1]
  · split
    · rw [taFlags_setTaFlag, or_and_of_and_zero h2]
    · split
      · have he : taFlags (some { (setTaFlag s.ta TCP_A_DUPLICATE_ACK).getD {} with
            dupack_num := s.fwd.seqinfo.dupacknum + 1,
            dupack_frame := s.fwd.seqinfo.lastnondupack }) =
            taFlags (setTaFlag s.ta TCP_A_DUPLICATE_ACK) := by
          cases s.ta <;> rfl
        rw [he, taFlags_setTaFlag, or_and_of_and_zero h3]
      · rfl

/-- Masked-flag preservation across the whole forward classification block,
for any mask free of the bits that block can set. -/
lemma tasn_classify_and (seg : Seg) (s : SeqAnalysisState) (m : Nat)
    (hZWP : TCP_A_ZERO_WINDOW_PROBE &&& m = 0)
    (hZW : TCP_A_ZERO_WINDOW &&& m = 0)
    (hL : TCP_A_LOST_PACKET &&& m = 0)
    (hKA : TCP_A_KEEP_ALIVE &&& m = 0)
    (hWU : TCP_A_WINDOW_UPDATE &&& m = 0)
    (hWF : TCP_A_WINDOW_FULL &&& m = 0)
    (hKAA : TCP_A_KEEP_ALIVE_ACK &&& m = 0)
    (hZA : TCP_A_ZERO_WINDOW_PROBE_ACK &&& m = 0)
    (hD : TCP_A_DUPLICATE_ACK &&& m = 0) :
    taFlags (tasn_classify seg s).ta &&& m = taFlags s.ta &&& m := by
  unfold tasn_classify
  split
  · show taFlags (setTaFlag s.ta TCP_A_ZERO_WINDOW_PROBE) &&& m = _
    rw [taFlags_setTaFlag, or_and_of_and_zero hZWP]
  · rw [tasn_ackish_and _ _ _ hKAA hZA hD, tasn_window_full_and _ _ _ hWF,
      tasn_window_update_and _ _ _ hWU, tasn_keep_alive_and _ _ _ hKA,
      tasn_lost_and _ _ _ hL, tasn_zero_window_and _ _ _ hZW]

/-! ## Field preservation through the pre-update phase -/

lemma tasn_pre_update_fwd_seqinfo (ctx : SeqAnalysisCtx) (seg : Seg)
    (s : SeqAnalysisState) :
    (tasn_pre_update ctx seg s).fwd.seqinfo.nextseq = s.fwd.seqinfo.nextseq ∧
    (tasn_pre_update ctx seg s).fwd.seqinfo.nextseqtime = s.fwd.seqinfo.nextseqtime ∧
    (tasn_pre_update ctx seg s).fwd.seqinfo.nextseqframe = s.fwd.seqinfo.nextseqframe ∧
    (tasn_pre_update ctx seg s).fwd.seqinfo.maxseqtobeacked = s.fwd.seqinfo.maxseqtobeacked ∧
    (tasn_pre_update ctx seg s).fwd.seqinfo.segment_count = s.fwd.seqinfo.segment_count ∧
    (tasn_pre_update ctx seg s).fwd.seqinfo.segments = s.fwd.seqinfo.segments ∧
    (tasn_pre_update ctx seg s).fwd.seqinfo.lastack = s.fwd.seqinfo.lastack ∧
    (tasn_pre_update ctx seg s).fwd.seqinfo.lastacktime = s.fwd.seqinfo.lastacktime ∧
    (tasn_pre_update ctx seg s).fwd.window = s.fwd.window ∧
    (tasn_pre_update ctx seg s).fwd.maxsizeacked = s.fwd.maxsizeacked ∧
    (tasn_pre_update ctx seg s).fwd.push_bytes_sent = s.fwd.push_bytes_sent ∧
    (tasn_pre_update ctx seg s).fwd.push_set_last = s.fwd.push_set_last ∧
    (tasn_pre_update ctx seg s).fwd.lastsegmentflags = s.fwd.lastsegmentflags ∧
    (tasn_pre_update ctx seg s).fwd.scps_capable = s.fwd.scps_capable := by
  unfold tasn_pre_update tasn_classify
  split <;>
    exact ⟨rfl, rfl, rfl, rfl, rfl, rfl, rfl, rfl, rfl, rfl, rfl, rfl, rfl, rfl⟩

lemma tasn_pre_update_rev (ctx : SeqAnalysisCtx) (seg : Seg)
    (s : SeqAnalysisState) :
    (tasn_pre_update ctx seg s).rev.seqinfo.nextseq = s.rev.seqinfo.nextseq ∧
    (tasn_pre_update ctx seg s).rev.seqinfo.segments = s.rev.seqinfo.segments ∧
    (tasn_pre_update ctx seg s).rev.seqinfo.segment_count = s.rev.seqinfo.segment_count ∧
    (tasn_pre_update ctx seg s).rev.seqinfo.dupacknum = s.rev.seqinfo.dupacknum ∧
    (tasn_pre_update ctx seg s).rev.seqinfo.lastack = s.rev.seqinfo.lastack ∧
    (tasn_pre_update ctx seg s).rev.seqinfo.lastacktime = s.rev.seqinfo.lastacktime ∧
    (tasn_pre_update ctx seg s).rev.window = s.rev.window ∧
    (tasn_pre_update ctx seg s).rev.scps_capable = s.rev.scps_capable ∧
    (tasn_pre_update ctx seg s).rev.lastsegmentflags = s.rev.lastsegmentflags := by
  unfold tasn_pre_update tasn_classify
  split <;> exact ⟨rfl, rfl, rfl, rfl, rfl, rfl, rfl, rfl, rfl⟩

/-! ## Claim C3 -/

/-- Claim C3: across one first-pass call of `tcp_analyze_sequence_number`, the
forward flow's `nextseq` either stays unchanged, or was still unset (zero), or
strictly advances in sequence-space order (it is only assigned when the
candidate is sequence-greater than the stored value or the stored value is
zero); the reverse flow's `nextseq` is never touched.  Hence `nextseq` is
non-decreasing along a flow for the whole first pass, and only replacing the
connection record (the port-reuse split in `dissect_tcp`) can lower it. -/
theorem c3_nextseq_monotone (ctx : SeqAnalysisCtx) (seg : Seg)
    (s : SeqAnalysisState) :
    (tcp_analyze_sequence_number ctx seg s).rev.seqinfo.nextseq =
      s.rev.seqinfo.nextseq ∧
    ((tcp_analyze_sequence_number ctx seg s).fwd.seqinfo.nextseq =
        s.fwd.seqinfo.nextseq ∨
      s.fwd.seqinfo.nextseq = 0 ∨
      GT_SEQ (tcp_analyze_sequence_number ctx seg s).fwd.seqinfo.nextseq
        s.fwd.seqinfo.nextseq) := by
  have h5 := (tasn_pre_update_fwd_seqinfo ctx seg s).1
  constructor
  · show (tasn_pre_update ctx seg s).rev.seqinfo.nextseq = s.rev.seqinfo.nextseq
    exact (tasn_pre_update_rev ctx seg s).1
  · show (if nextseqAdvCond seg (tasn_pre_update ctx seg s) then
        tasn_nextseq_cand seg (tasn_pre_update ctx seg s)
      else (tasn_pre_update ctx seg s).fwd.seqinfo.nextseq) = s.fwd.seqinfo.nextseq ∨ _ ∨
      GT_SEQ (if nextseqAdvCond seg (tasn_pre_update ctx seg s) then
        tasn_nextseq_cand seg (tasn_pre_update ctx seg s)
      else (tasn_pre_update ctx seg s).fwd.seqinfo.nextseq) s.fwd.seqinfo.nextseq
    by_cases h : nextseqAdvCond seg (tasn_pre_update ctx seg s)
    · rw [if_pos h]
      have hadv := h.1
      rw [h5] at hadv
      rcases hadv with hgt | hz
      · exact Or.inr (Or.inr hgt)
      · exact Or.inr (Or.inl hz)
    · rw [if_neg h]
      exact Or.inl h5

/-! ## Per-packet-result flags through the tail of the analysis -/

lemma tasn_walk_taflags (seg : Seg) (scps : Bool) (l : List TcpUnacked)
    (ta : Option TcpAcked) (msa : Nat) :
    taFlags (tasn_walk seg scps l ta msa).2.1 = taFlags ta := by
  induction l generalizing ta msa with
  | nil => rfl
  | cons e rest ih =>
    show taFlags (tasn_walk seg scps (e :: rest) ta msa).2.1 = taFlags ta
    unfold tasn_walk
    split
    · exact (ih _ _).trans (by cases ta <;> rfl)
    · split
      · exact ih _ _
      · split
        · exact ih _ _
        · exact ih _ _

lemma tasn_ack_walk_taflags (seg : Seg) (s : SeqAnalysisState) :
    taFlags (tasn_ack_walk seg s).ta = taFlags s.ta := by
  show taFlags (tasn_walk seg s.rev.scps_capable s.rev.seqinfo.segments s.ta
    s.fwd.maxsizeacked).2.1 = taFlags s.ta
  exact tasn_walk_taflags _ _ _ _ _

lemma tasn_bif_taflags (ctx : SeqAnalysisCtx) (seg : Seg) (s : SeqAnalysisState) :
    taFlags (tasn_bif ctx seg s).ta = taFlags s.ta := by
  unfold tasn_bif
  split
  · split
    · cases s.ta <;> rfl
    · cases s.ta <;> rfl
  · rfl

/-- The flags recorded for a packet do not change after the retransmission
block: the whole analysis leaves exactly the flags of the pre-update phase. -/
lemma run_taflags (ctx : SeqAnalysisCtx) (seg : Seg) (s : SeqAnalysisState) :
    taFlags (tcp_analyze_sequence_number ctx seg s).ta =
      taFlags (tasn_pre_update ctx seg s).ta := by
  unfold tcp_analyze_sequence_number
  rw [tasn_bif_taflags, tasn_ack_walk_taflags]
  rfl

/-! ## Which packets get the zero-window-probe / keep-alive flags -/

lemma tasn_classify_zwp (seg : Seg) (s : SeqAnalysisState) (hta : s.ta = none) :
    (taHasFlag (tasn_classify seg s).ta TCP_A_ZERO_WINDOW_PROBE ↔ zwpCond seg s) := by
  unfold tasn_classify
  split
  · rename_i h
    refine iff_of_true ?_ h
    show taFlags (setTaFlag s.ta TCP_A_ZERO_WINDOW_PROBE) &&& _ ≠ 0
    rw [taFlags_setTaFlag, hta]
    decide
  · rename_i h
    refine iff_of_false ?_ h
    intro hf
    apply hf
    show taFlags (tasn_ackish seg (tasn_window_full seg (tasn_window_update seg
      (tasn_keep_alive seg (tasn_lost seg (tasn_zero_window seg s)))))).ta &&&
      TCP_A_ZERO_WINDOW_PROBE = 0
    rw [tasn_ackish_and _ _ _ (by decide) (by decide) (by decide),
      tasn_window_full_and _ _ _ (by decide), tasn_window_update_and _ _ _ (by decide),
      tasn_keep_alive_and _ _ _ (by decide), tasn_lost_and _ _ _ (by decide),
      tasn_zero_window_and _ _ _ (by decide), hta]
    rfl

lemma tasn_keep_alive_hasflag (seg : Seg) (t : SeqAnalysisState)
    (ht : taFlags t.ta &&& TCP_A_KEEP_ALIVE = 0) :
    (taHasFlag (tasn_keep_alive seg t).ta TCP_A_KEEP_ALIVE ↔ kaCond seg t) := by
  show taFlags (if kaCond seg t then setTaFlag t.ta TCP_A_KEEP_ALIVE else t.ta) &&&
    TCP_A_KEEP_ALIVE ≠ 0 ↔ kaCond seg t
  split
  · rename_i hk
    rw [taFlags_setTaFlag, nat_and_or_right, ht, Nat.zero_or]
    exact iff_of_true (by decide) hk
  · rename_i hk
    rw [ht]
    exact iff_of_false (fun hne => hne rfl) hk

lemma tasn_classify_ka (seg : Seg) (s : SeqAnalysisState) (hta : s.ta = none) :
    (taHasFlag (tasn_classify seg s).ta TCP_A_KEEP_ALIVE ↔
      ¬ zwpCond seg s ∧ kaCond seg s) := by
  unfold tasn_classify
  split
  · rename_i h
    refine iff_of_false ?_ (fun hc => hc.1 h)
    intro hf
    apply hf
    show taFlags (setTaFlag s.ta TCP_A_ZERO_WINDOW_PROBE) &&& TCP_A_KEEP_ALIVE = 0
    rw [taFlags_setTaFlag, hta]
    decide
  · rename_i h
    have hY : taFlags (tasn_lost seg (tasn_zero_window seg s)).ta &&&
        TCP_A_KEEP_ALIVE = 0 := by
      rw [tasn_lost_and _ _ _ (by decide), tasn_zero_window_and _ _ _ (by decide), hta]
      rfl
    have hmain : taHasFlag (tasn_ackish seg (tasn_window_full seg (tasn_window_update seg
        (tasn_keep_alive seg (tasn_lost seg (tasn_zero_window seg s)))))).ta
        TCP_A_KEEP_ALIVE ↔
        kaCond seg (tasn_lost seg (tasn_zero_window seg s)) := by
      unfold taHasFlag
      rw [tasn_ackish_and _ _ _ (by decide) (by decide) (by decide),
        tasn_window_full_and _ _ _ (by decide), tasn_window_update_and _ _ _ (by decide)]
      exact tasn_keep_alive_hasflag seg _ hY
    exact hmain.trans (Iff.intro (fun hk => ⟨h, hk⟩) (fun hc => hc.2))

/-- The retransmission-family block computes exactly the first-match chain
(with the code's out-of-order threshold), OR-ed onto whatever family bits the
incoming result already carried. -/
lemma tasn_retrans_ta_family (ctx : SeqAnalysisCtx) (seg : Seg)
    (s : SeqAnalysisState) :
    taFlags (tasn_retrans_ta ctx seg s) &&& familyMask =
      (taFlags s.ta &&& familyMask) |||
        c1_chain (ooo_thres ctx) seg (decide (taHasFlag s.ta TCP_A_KEEP_ALIVE))
          s.fwd.seqinfo.nextseq s.fwd.seqinfo.nextseqtime s.rev.seqinfo.dupacknum
          s.rev.seqinfo.lastack s.rev.seqinfo.lastacktime := by
  unfold tasn_retrans_ta c1_chain
  by_cases hg : seg.seglen > 0 ∨ seg.flags &&& (TH_SYN ||| TH_FIN) ≠ 0
  · rw [if_pos hg, if_neg (not_not_intro hg)]
    by_cases hka : taHasFlag s.ta TCP_A_KEEP_ALIVE
    · rw [if_pos hka, if_pos (decide_eq_true hka), Nat.or_zero]
    · rw [if_neg hka, if_neg (fun hb => hka (of_decide_eq_true hb))]
      by_cases h1 : seq_not_advanced seg s.fwd.seqinfo.nextseq ∧
          2 ≤ s.rev.seqinfo.dupacknum ∧ s.rev.seqinfo.lastack = seg.seq ∧
          deltaNsU64 seg.abs_ts s.rev.seqinfo.lastacktime < 20000000
      · rw [if_pos h1, if_pos h1, taFlags_setTaFlag, nat_and_or_right,
          (by decide : TCP_A_FAST_RETRANSMISSION &&& familyMask =
            TCP_A_FAST_RETRANSMISSION)]
      · rw [if_neg h1, if_neg h1]
        by_cases h2 : seq_not_advanced seg s.fwd.seqinfo.nextseq ∧
            deltaNsU64 seg.abs_ts s.fwd.seqinfo.nextseqtime < ooo_thres ctx ∧
            s.fwd.seqinfo.nextseq ≠ add32 seg.seq seg.seglen
        · rw [if_pos h2, if_pos h2, taFlags_setTaFlag, nat_and_or_right,
            (by decide : TCP_A_OUT_OF_ORDER &&& familyMask = TCP_A_OUT_OF_ORDER)]
        · rw [if_neg h2, if_neg h2]
          by_cases h3 : seg.seglen > 0 ∧ s.rev.seqinfo.lastack ≠ 0 ∧
              LE_SEQ (add32 seg.seq seg.seglen) s.rev.seqinfo.lastack
          · rw [if_pos h3, if_pos h3, taFlags_setTaFlag, nat_and_or_right,
              (by decide : TCP_A_SPURIOUS_RETRANSMISSION &&& familyMask =
                TCP_A_SPURIOUS_RETRANSMISSION)]
          · rw [if_neg h3, if_neg h3]
            by_cases h4 : seq_not_advanced seg s.fwd.seqinfo.nextseq
            · rw [if_pos h4, if_pos h4]
              have he : taFlags (some {
                  (setTaFlag s.ta TCP_A_RETRANSMISSION).getD {} with
                  rto_ts := nstimeSub seg.abs_ts s.fwd.seqinfo.nextseqtime,
                  rto_frame := s.fwd.seqinfo.nextseqframe }) =
                  taFlags (setTaFlag s.ta TCP_A_RETRANSMISSION) := by
                cases s.ta <;> rfl
              rw [he, taFlags_setTaFlag, nat_and_or_right,
                (by decide : TCP_A_RETRANSMISSION &&& familyMask =
                  TCP_A_RETRANSMISSION)]
            · rw [if_neg h4, if_neg h4, Nat.or_zero]
  · rw [if_neg hg, if_pos hg, Nat.or_zero]

/-- The chain produces at most one family flag. -/
lemma c1_chain_mem (thres : Nat) (seg : Seg) (b : Bool) (n : Nat) (t : NsTime)
    (dn la : Nat) (lat : NsTime) :
    c1_chain thres seg b n t dn la lat ∈
      [0, TCP_A_RETRANSMISSION, TCP_A_OUT_OF_ORDER, TCP_A_FAST_RETRANSMISSION,
       TCP_A_SPURIOUS_RETRANSMISSION] := by
  unfold c1_chain
  repeat' split
  all_goals simp

/-- Claim C1 (amended): for a first-pass packet (fresh per-packet slot), the
retransmission-family bits recorded by `tcp_analyze_sequence_number` are
exactly the first-match chain — fast retransmission, then out-of-order, then
spurious retransmission, then plain retransmission — over the pre-call flow
values, gated on `length>0 ∨ SYN ∨ FIN` and on the packet not being flagged
keep-alive (which happens exactly when the keep-alive condition holds and the
zero-window-probe short-circuit did not fire); the out-of-order time window is
the initial RTT when a sample exists and 3 ms otherwise (not
`max(3ms, initial RTT)`); at most one flag of the family is set. -/
theorem c1_retransmission_family (ctx : SeqAnalysisCtx) (seg : Seg)
    (s : SeqAnalysisState) (hta : s.ta = none) :
    taFlags (tcp_analyze_sequence_number ctx seg s).ta &&& familyMask =
      c1_chain (ooo_thres ctx) seg (decide (¬ zwpCond seg s ∧ kaCond seg s))
        s.fwd.seqinfo.nextseq s.fwd.seqinfo.nextseqtime s.rev.seqinfo.dupacknum
        s.rev.seqinfo.lastack s.rev.seqinfo.lastacktime ∧
    taFlags (tcp_analyze_sequence_number ctx seg s).ta &&& familyMask ∈
      [0, TCP_A_RETRANSMISSION, TCP_A_OUT_OF_ORDER, TCP_A_FAST_RETRANSMISSION,
       TCP_A_SPURIOUS_RETRANSMISSION] := by
  have hmain : taFlags (tcp_analyze_sequence_number ctx seg s).ta &&& familyMask =
      c1_chain (ooo_thres ctx) seg (decide (¬ zwpCond seg s ∧ kaCond seg s))
        s.fwd.seqinfo.nextseq s.fwd.seqinfo.nextseqtime s.rev.seqinfo.dupacknum
        s.rev.seqinfo.lastack s.rev.seqinfo.lastacktime := by
    rw [run_taflags]
    show taFlags (tasn_retrans_ta ctx seg (tasn_ack_lost seg (tasn_finished_fwd seg
      (tasn_classify seg (tasn_base seg s))))) &&& familyMask = _
    rw [tasn_retrans_ta_family]
    have hz : taFlags (tasn_ack_lost seg (tasn_finished_fwd seg
        (tasn_classify seg (tasn_base seg s)))).ta &&& familyMask = 0 := by
      rw [tasn_ack_lost_and _ _ _ (by decide)]
      show taFlags (tasn_classify seg (tasn_base seg s)).ta &&& familyMask = 0
      rw [tasn_classify_and _ _ _ (by decide) (by decide) (by decide) (by decide)
        (by decide) (by decide) (by decide) (by decide) (by decide)]
      show taFlags s.ta &&& familyMask = 0
      rw [hta]
      rfl
    have hflag : taFlags (tasn_ack_lost seg (tasn_finished_fwd seg
        (tasn_classify seg (tasn_base seg s)))).ta &&& TCP_A_KEEP_ALIVE =
        taFlags (tasn_classify seg (tasn_base seg s)).ta &&& TCP_A_KEEP_ALIVE :=
      tasn_ack_lost_and _ _ _ (by decide)
    have hdec : decide (taHasFlag (tasn_ack_lost seg (tasn_finished_fwd seg
        (tasn_classify seg (tasn_base seg s)))).ta TCP_A_KEEP_ALIVE) =
        decide (¬ zwpCond seg s ∧ kaCond seg s) := by
      apply decide_eq_decide.mpr
      have h1 : taHasFlag (tasn_ack_lost seg (tasn_finished_fwd seg
          (tasn_classify seg (tasn_base seg s)))).ta TCP_A_KEEP_ALIVE ↔
          taHasFlag (tasn_classify seg (tasn_base seg s)).ta TCP_A_KEEP_ALIVE := by
        unfold taHasFlag
        rw [hflag]
      exact h1.trans (tasn_classify_ka seg (tasn_base seg s) hta)
    rw [hz, Nat.zero_or, hdec]
    show c1_chain (ooo_thres ctx) seg (decide (¬ zwpCond seg s ∧ kaCond seg s))
      (tasn_pre_update ctx seg s).fwd.seqinfo.nextseq
      (tasn_pre_update ctx seg s).fwd.seqinfo.nextseqtime
      (tasn_pre_update ctx seg s).rev.seqinfo.dupacknum
      (tasn_pre_update ctx seg s).rev.seqinfo.lastack
      (tasn_pre_update ctx seg s).rev.seqinfo.lastacktime =
      c1_chain (ooo_thres ctx) seg (decide (¬ zwpCond seg s ∧ kaCond seg s))
      s.fwd.seqinfo.nextseq s.fwd.seqinfo.nextseqtime s.rev.seqinfo.dupacknum
      s.rev.seqinfo.lastack s.rev.seqinfo.lastacktime
    rw [(tasn_pre_update_fwd_seqinfo ctx seg s).1,
      (tasn_pre_update_fwd_seqinfo ctx seg s).2.1,
      (tasn_pre_update_rev ctx seg s).2.2.2.1,
      (tasn_pre_update_rev ctx seg s).2.2.2.2.1,
      (tasn_pre_update_rev ctx seg s).2.2.2.2.2.1]
  refine ⟨hmain, ?_⟩
  rw [hmain]
  exact c1_chain_mem _ _ _ _ _ _ _ _

/-- Witness for claim C1 at a concrete retransmitted data segment. -/
theorem c1_retransmission_family_witness :
    taFlags (tcp_analyze_sequence_number c1Ctx c1Seg c1St).ta &&& familyMask =
      c1_chain (ooo_thres c1Ctx) c1Seg
        (decide (¬ zwpCond c1Seg c1St ∧ kaCond c1Seg c1St))
        c1St.fwd.seqinfo.nextseq c1St.fwd.seqinfo.nextseqtime
        c1St.rev.seqinfo.dupacknum c1St.rev.seqinfo.lastack
        c1St.rev.seqinfo.lastacktime ∧
    taFlags (tcp_analyze_sequence_number c1Ctx c1Seg c1St).ta &&& familyMask ∈
      [0, TCP_A_RETRANSMISSION, TCP_A_OUT_OF_ORDER, TCP_A_FAST_RETRANSMISSION,
       TCP_A_SPURIOUS_RETRANSMISSION] :=
  c1_retransmission_family c1Ctx c1Seg c1St rfl

/-- Counterexample to claim C1 as stated: with an initial RTT sample of 1 ms,
a data segment repeating old data 2 ms after `nextseqtime` is classified a
plain retransmission by the code (2 ms is not below the 1 ms threshold), while
the claim's `max(3ms, initial RTT)` window would classify it out-of-order. -/
theorem c1_counterexample :
    taFlags (tcp_analyze_sequence_number c1Ctx c1Seg c1St).ta &&& familyMask =
      TCP_A_RETRANSMISSION ∧
    c1_chain (c1ThresSpec c1Ctx) c1Seg
      (decide (¬ zwpCond c1Seg c1St ∧ kaCond c1Seg c1St))
      c1St.fwd.seqinfo.nextseq c1St.fwd.seqinfo.nextseqtime
      c1St.rev.seqinfo.dupacknum c1St.rev.seqinfo.lastack
      c1St.rev.seqinfo.lastacktime = TCP_A_OUT_OF_ORDER ∧
    TCP_A_RETRANSMISSION ≠ TCP_A_OUT_OF_ORDER := by
  exact ⟨by decide, by decide, by decide⟩

lemma tasn_retrans_ta_and (ctx : SeqAnalysisCtx) (seg : Seg) (s : SeqAnalysisState)
    (m : Nat)
    (hF : TCP_A_FAST_RETRANSMISSION &&& m = 0)
    (hO : TCP_A_OUT_OF_ORDER &&& m = 0)
    (hS : TCP_A_SPURIOUS_RETRANSMISSION &&& m = 0)
    (hR : TCP_A_RETRANSMISSION &&& m = 0) :
    taFlags (tasn_retrans_ta ctx seg s) &&& m = taFlags s.ta &&& m := by
  unfold tasn_retrans_ta
  split
  · split
    · rfl
    · split
      · rw [taFlags_setTaFlag, or_and_of_and_zero hF]
      · split
        · rw [taFlags_setTaFlag, or_and_of_and_zero hO]
        · split
          · rw [taFlags_setTaFlag, or_and_of_and_zero hS]
          · split
            · have he : taFlags (some {
                  (setTaFlag s.ta TCP_A_RETRANSMISSION).getD {} with
                  rto_ts := nstimeSub seg.abs_ts s.fwd.seqinfo.nextseqtime,
                  rto_frame := s.fwd.seqinfo.nextseqframe }) =
                  taFlags (setTaFlag s.ta TCP_A_RETRANSMISSION) := by
                cases s.ta <;> rfl
              rw [he, taFlags_setTaFlag, or_and_of_and_zero hR]
            · rfl
  · rfl

/-- Whether the zero-window-probe flag stands on the per-packet result at the
end of the classification phase (fresh slot): exactly the probe condition. -/
lemma run_zwp (ctx : SeqAnalysisCtx) (seg : Seg) (s : SeqAnalysisState)
    (hta : s.ta = none) :
    (taHasFlag (tasn_pre_update ctx seg s).ta TCP_A_ZERO_WINDOW_PROBE ↔
      zwpCond seg s) := by
  have h1 : taFlags (tasn_pre_update ctx seg s).ta &&& TCP_A_ZERO_WINDOW_PROBE =
      taFlags (tasn_classify seg (tasn_base seg s)).ta &&& TCP_A_ZERO_WINDOW_PROBE := by
    show taFlags (tasn_retrans_ta ctx seg (tasn_ack_lost seg (tasn_finished_fwd seg
      (tasn_classify seg (tasn_base seg s))))) &&& _ = _
    rw [tasn_retrans_ta_and _ _ _ _ (by decide) (by decide) (by decide) (by decide)]
    exact tasn_ack_lost_and _ _ _ (by decide)
  unfold taHasFlag
  rw [h1]
  exact tasn_classify_zwp seg (tasn_base seg s) hta

/-- Claim C4 (amended): at the end of every first-pass call, window, last ack
and its timestamp are stored unconditionally and `lastsegmentflags` equals the
packet's recorded flags (0 when none); `nextseq` advances to the candidate
`seq+length` — one more when SYN/FIN is set *and* the segment was appended to
the unacked list (list below its cap) — exactly when the candidate is
sequence-greater than the stored value or the stored value is zero, and the
packet was not classified a zero-window probe; `maxseqtobeacked` is set to the
*updated* `nextseq` exactly when `seq` equals its stored value or it is zero,
and the packet was not a zero-window probe. -/
theorem c4_state_mutation (ctx : SeqAnalysisCtx) (seg : Seg)
    (s : SeqAnalysisState) (hta : s.ta = none) :
    (tcp_analyze_sequence_number ctx seg s).fwd.window = seg.window ∧
    (tcp_analyze_sequence_number ctx seg s).fwd.seqinfo.lastack = seg.ack ∧
    (tcp_analyze_sequence_number ctx seg s).fwd.seqinfo.lastacktime = seg.abs_ts ∧
    (tcp_analyze_sequence_number ctx seg s).fwd.lastsegmentflags =
      taFlags (tcp_analyze_sequence_number ctx seg s).ta ∧
    (((GT_SEQ (tasn_nextseq_cand seg s) s.fwd.seqinfo.nextseq ∨
        s.fwd.seqinfo.nextseq = 0) ∧ ¬ zwpCond seg s) →
      (tcp_analyze_sequence_number ctx seg s).fwd.seqinfo.nextseq =
        tasn_nextseq_cand seg s) ∧
    (¬ ((GT_SEQ (tasn_nextseq_cand seg s) s.fwd.seqinfo.nextseq ∨
        s.fwd.seqinfo.nextseq = 0) ∧ ¬ zwpCond seg s) →
      (tcp_analyze_sequence_number ctx seg s).fwd.seqinfo.nextseq =
        s.fwd.seqinfo.nextseq) ∧
    (((EQ_SEQ seg.seq s.fwd.seqinfo.maxseqtobeacked ∨
        s.fwd.seqinfo.maxseqtobeacked = 0) ∧ ¬ zwpCond seg s) →
      (tcp_analyze_sequence_number ctx seg s).fwd.seqinfo.maxseqtobeacked =
        (tcp_analyze_sequence_number ctx seg s).fwd.seqinfo.nextseq) ∧
    (¬ ((EQ_SEQ seg.seq s.fwd.seqinfo.maxseqtobeacked ∨
        s.fwd.seqinfo.maxseqtobeacked = 0) ∧ ¬ zwpCond seg s) →
      (tcp_analyze_sequence_number ctx seg s).fwd.seqinfo.maxseqtobeacked =
        s.fwd.seqinfo.maxseqtobeacked) := by
  have hc : tasn_nextseq_cand seg (tasn_pre_update ctx seg s) =
      tasn_nextseq_cand seg s := by
    unfold tasn_nextseq_cand addSegCond
    simp only [(tasn_pre_update_fwd_seqinfo ctx seg s).2.2.2.2.1]
  have hn5 : (tasn_pre_update ctx seg s).fwd.seqinfo.nextseq =
      s.fwd.seqinfo.nextseq := (tasn_pre_update_fwd_seqinfo ctx seg s).1
  have hm5 : (tasn_pre_update ctx seg s).fwd.seqinfo.maxseqtobeacked =
      s.fwd.seqinfo.maxseqtobeacked :=
    (tasn_pre_update_fwd_seqinfo ctx seg s).2.2.2.1
  have hadv : nextseqAdvCond seg (tasn_pre_update ctx seg s) ↔
      ((GT_SEQ (tasn_nextseq_cand seg s) s.fwd.seqinfo.nextseq ∨
        s.fwd.seqinfo.nextseq = 0) ∧ ¬ zwpCond seg s) := by
    unfold nextseqAdvCond
    rw [hc, hn5]
    exact and_congr Iff.rfl (not_congr (run_zwp ctx seg s hta))
  have hmx : maxSeqCond seg (tasn_pre_update ctx seg s) ↔
      ((EQ_SEQ seg.seq s.fwd.seqinfo.maxseqtobeacked ∨
        s.fwd.seqinfo.maxseqtobeacked = 0) ∧ ¬ zwpCond seg s) := by
    unfold maxSeqCond
    rw [hm5]
    exact and_congr Iff.rfl (not_congr (run_zwp ctx seg s hta))
  refine ⟨rfl, rfl, rfl, (run_taflags ctx seg s).symm, ?_, ?_, ?_, ?_⟩
  · intro hcond
    show (if nextseqAdvCond seg (tasn_pre_update ctx seg s) then
        tasn_nextseq_cand seg (tasn_pre_update ctx seg s)
      else (tasn_pre_update ctx seg s).fwd.seqinfo.nextseq) = tasn_nextseq_cand seg s
    rw [if_pos (hadv.mpr hcond), hc]
  · intro hncond
    show (if nextseqAdvCond seg (tasn_pre_update ctx seg s) then
        tasn_nextseq_cand seg (tasn_pre_update ctx seg s)
      else (tasn_pre_update ctx seg s).fwd.seqinfo.nextseq) = s.fwd.seqinfo.nextseq
    rw [if_neg (fun h => hncond (hadv.mp h)), hn5]
  · intro hcond
    show (if maxSeqCond seg (tasn_pre_update ctx seg s) then
        (if nextseqAdvCond seg (tasn_pre_update ctx seg s) then
          tasn_nextseq_cand seg (tasn_pre_update ctx seg s)
        else (tasn_pre_update ctx seg s).fwd.seqinfo.nextseq)
      else (tasn_pre_update ctx seg s).fwd.seqinfo.maxseqtobeacked) =
      (tcp_analyze_sequence_number ctx seg s).fwd.seqinfo.nextseq
    rw [if_pos (hmx.mpr hcond)]
    rfl
  · intro hncond
    show (if maxSeqCond seg (tasn_pre_update ctx seg s) then
        (if nextseqAdvCond seg (tasn_pre_update ctx seg s) then
          tasn_nextseq_cand seg (tasn_pre_update ctx seg s)
        else (tasn_pre_update ctx seg s).fwd.seqinfo.nextseq)
      else (tasn_pre_update ctx seg s).fwd.seqinfo.maxseqtobeacked) =
      s.fwd.seqinfo.maxseqtobeacked
    rw [if_neg (fun h => hncond (hmx.mp h)), hm5]

/-- Witness for claim C4 at a concrete data segment beyond the expected
sequence number: the hole-opening segment advances `nextseq` to the candidate
while `maxseqtobeacked` (which `seq` does not match) stays put. -/
theorem c4_state_mutation_witness :
    (tcp_analyze_sequence_number ctxBase c4SegA c4StA).fwd.window = c4SegA.window ∧
    (tcp_analyze_sequence_number ctxBase c4SegA c4StA).fwd.seqinfo.lastack =
      c4SegA.ack ∧
    (tcp_analyze_sequence_number ctxBase c4SegA c4StA).fwd.seqinfo.lastacktime =
      c4SegA.abs_ts ∧
    (tcp_analyze_sequence_number ctxBase c4SegA c4StA).fwd.lastsegmentflags =
      taFlags (tcp_analyze_sequence_number ctxBase c4SegA c4StA).ta ∧
    (tcp_analyze_sequence_number ctxBase c4SegA c4StA).fwd.seqinfo.nextseq =
      tasn_nextseq_cand c4SegA c4StA ∧
    (tcp_analyze_sequence_number ctxBase c4SegA c4StA).fwd.seqinfo.maxseqtobeacked =
      c4StA.fwd.seqinfo.maxseqtobeacked :=
  ⟨(c4_state_mutation ctxBase c4SegA c4StA rfl).1,
   (c4_state_mutation ctxBase c4SegA c4StA rfl).2.1,
   (c4_state_mutation ctxBase c4SegA c4StA rfl).2.2.1,
   (c4_state_mutation ctxBase c4SegA c4StA rfl).2.2.2.1,
   (c4_state_mutation ctxBase c4SegA c4StA rfl).2.2.2.2.1 (by decide),
   (c4_state_mutation ctxBase c4SegA c4StA rfl).2.2.2.2.2.2.2 (by decide)⟩

/-- Counterexample to claim C4 as stated: at segment A (`seq=300, len=50`
with `nextseq=151`, `maxseqtobeacked=151`) the code leaves `maxseqtobeacked`
alone because `seq` does not match it, while the claim advances it to
`max(current, seq+len)`; at segment B (a FIN arriving while the unacked list
sits at its hard cap) the code advances `nextseq` to `seq+len` without the
FIN byte, while the claim adds one unconditionally. -/
theorem c4_counterexample :
    ¬ c4ClaimPost c4SegA c4StA (tcp_analyze_sequence_number ctxBase c4SegA c4StA) ∧
    ¬ c4ClaimPost c4SegB c4StB (tcp_analyze_sequence_number ctxBase c4SegB c4StB) := by
  exact ⟨by decide, by decide⟩

/-! ## Claim C6 -/

lemma run_fwd_base (ctx : SeqAnalysisCtx) (seg : Seg) (s : SeqAnalysisState) :
    (tcp_analyze_sequence_number ctx seg s).fwd.base_seq =
      (tasn_base seg s).fwd.base_seq ∧
    (tcp_analyze_sequence_number ctx seg s).fwd.static_flags =
      (tasn_base seg s).fwd.static_flags ∧
    (tcp_analyze_sequence_number ctx seg s).rev.base_seq =
      (tasn_base seg s).rev.base_seq ∧
    (tcp_analyze_sequence_number ctx seg s).rev.static_flags =
      (tasn_base seg s).rev.static_flags := by
  unfold tcp_analyze_sequence_number tasn_pre_update tasn_classify
  split <;> exact ⟨rfl, rfl, rfl, rfl⟩

/-- Claim C6: `base_seq` is assigned at most once per flow — once the
base-seq-set marker stands in `static_flags`, a later segment changes neither
the flow's `base_seq` nor its `static_flags`; and on the handshake
`SYN(seq=100)`, `SYN/ACK(seq=500, ack=101)`, `ACK(seq=101, ack=501)` the two
flows end with `base_seq` 100 and 500 and no anomaly flags on any of the
three packets. -/
theorem c6_base_seq_once (ctx : SeqAnalysisCtx) (seg : Seg) (s : SeqAnalysisState) :
    (s.fwd.static_flags &&& TCP_S_BASE_SEQ_SET ≠ 0 →
      (tcp_analyze_sequence_number ctx seg s).fwd.base_seq = s.fwd.base_seq ∧
      (tcp_analyze_sequence_number ctx seg s).fwd.static_flags = s.fwd.static_flags) ∧
    (s.rev.static_flags &&& TCP_S_BASE_SEQ_SET ≠ 0 →
      (tcp_analyze_sequence_number ctx seg s).rev.base_seq = s.rev.base_seq ∧
      (tcp_analyze_sequence_number ctx seg s).rev.static_flags = s.rev.static_flags) ∧
    (hsSt3.fwd.base_seq = 100 ∧ hsSt3.rev.base_seq = 500 ∧
      taFlags hsSt1.ta = 0 ∧ taFlags hsSt2.ta = 0 ∧ taFlags hsSt3.ta = 0) := by
  have hb := run_fwd_base ctx seg s
  refine ⟨?_, ?_, by decide⟩
  · intro h
    constructor
    · rw [hb.1]
      show (if s.fwd.static_flags &&& TCP_S_BASE_SEQ_SET = 0 then _
        else s.fwd.base_seq) = s.fwd.base_seq
      rw [if_neg h]
    · rw [hb.2.1]
      show (if s.fwd.static_flags &&& TCP_S_BASE_SEQ_SET = 0 then _
        else s.fwd.static_flags) = s.fwd.static_flags
      rw [if_neg h]
  · intro h
    constructor
    · rw [hb.2.2.1]
      show (if s.rev.static_flags &&& TCP_S_BASE_SEQ_SET = 0 ∧
          seg.flags &&& TH_ACK ≠ 0 then _ else s.rev.base_seq) = s.rev.base_seq
      rw [if_neg (fun hc => h hc.1)]
    · rw [hb.2.2.2]
      show (if s.rev.static_flags &&& TCP_S_BASE_SEQ_SET = 0 ∧
          seg.flags &&& TH_ACK ≠ 0 then _ else s.rev.static_flags) = s.rev.static_flags
      rw [if_neg (fun hc => h hc.1)]

/-- Witness for claim C6 on a connection whose both bases are already set. -/
theorem c6_base_seq_once_witness :
    (tcp_analyze_sequence_number ctxBase hsSeg3 hsSt3).fwd.base_seq =
      hsSt3.fwd.base_seq ∧
    (tcp_analyze_sequence_number ctxBase hsSeg3 hsSt3).fwd.static_flags =
      hsSt3.fwd.static_flags ∧
    (tcp_analyze_sequence_number ctxBase hsSeg3 hsSt3).rev.base_seq =
      hsSt3.rev.base_seq ∧
    (tcp_analyze_sequence_number ctxBase hsSeg3 hsSt3).rev.static_flags =
      hsSt3.rev.static_flags :=
  ⟨((c6_base_seq_once ctxBase hsSeg3 hsSt3).1 (by decide)).1,
   ((c6_base_seq_once ctxBase hsSeg3 hsSt3).1 (by decide)).2,
   ((c6_base_seq_once ctxBase hsSeg3 hsSt3).2.1 (by decide)).1,
   ((c6_base_seq_once ctxBase hsSeg3 hsSt3).2.1 (by decide)).2⟩

/-! ## Claim C8 -/

lemma tasn_ackish_dup_hasflag (seg : Seg) (t : SeqAnalysisState)
    (ht : taFlags t.ta &&& TCP_A_DUPLICATE_ACK = 0) :
    (taHasFlag (tasn_ackish seg t).ta TCP_A_DUPLICATE_ACK ↔
      ¬ kaAckCond seg t ∧ ¬ zwpAckCond seg t ∧ dupEqCond seg t) := by
  show taFlags (if kaAckCond seg t then setTaFlag t.ta TCP_A_KEEP_ALIVE_ACK
      else if zwpAckCond seg t then setTaFlag t.ta TCP_A_ZERO_WINDOW_PROBE_ACK
      else if dupEqCond seg t then
        some { (setTaFlag t.ta TCP_A_DUPLICATE_ACK).getD {} with
          dupack_num := t.fwd.seqinfo.dupacknum + 1,
          dupack_frame := t.fwd.seqinfo.lastnondupack }
      else t.ta) &&& TCP_A_DUPLICATE_ACK ≠ 0 ↔ _
  split
  · rename_i h
    rw [taFlags_setTaFlag, or_and_of_and_zero (by decide), ht]
    exact iff_of_false (fun hne => hne rfl) (fun hc => hc.1 h)
  · rename_i h1
    split
    · rename_i h2
      rw [taFlags_setTaFlag, or_and_of_and_zero (by decide), ht]
      exact iff_of_false (fun hne => hne rfl) (fun hc => hc.2.1 h2)
    · rename_i h2
      split
      · rename_i h3
        have he : taFlags (some { (setTaFlag t.ta TCP_A_DUPLICATE_ACK).getD {} with
            dupack_num := t.fwd.seqinfo.dupacknum + 1,
            dupack_frame := t.fwd.seqinfo.lastnondupack }) =
            taFlags (setTaFlag t.ta TCP_A_DUPLICATE_ACK) := by
          cases t.ta <;> rfl
        rw [he, taFlags_setTaFlag, nat_and_or_right, ht, Nat.zero_or]
        exact iff_of_true (by decide) ⟨h1, h2, h3⟩
      · rename_i h3
        rw [ht]
        exact iff_of_false (fun hne => hne rfl) (fun hc => h3 hc.2.2)

/-- The duplicate-ACK flag stands on the final result exactly when the
equality test held, no goto short-circuited it, and the packet was not a
zero-window probe (fresh per-packet slot). -/
lemma run_dupack_flag (ctx : SeqAnalysisCtx) (seg : Seg) (s : SeqAnalysisState)
    (hta : s.ta = none) :
    (taHasFlag (tcp_analyze_sequence_number ctx seg s).ta TCP_A_DUPLICATE_ACK ↔
      ¬ zwpCond seg s ∧ ¬ kaAckCond seg s ∧ ¬ zwpAckCond seg s ∧
        dupEqCond seg s) := by
  unfold taHasFlag
  rw [run_taflags]
  have h1 : taFlags (tasn_pre_update ctx seg s).ta &&& TCP_A_DUPLICATE_ACK =
      taFlags (tasn_classify seg (tasn_base seg s)).ta &&& TCP_A_DUPLICATE_ACK := by
    show taFlags (tasn_retrans_ta ctx seg (tasn_ack_lost seg (tasn_finished_fwd seg
      (tasn_classify seg (tasn_base seg s))))) &&& _ = _
    rw [tasn_retrans_ta_and _ _ _ _ (by decide) (by decide) (by decide) (by decide)]
    exact tasn_ack_lost_and _ _ _ (by decide)
  rw [h1]
  unfold tasn_classify
  split
  · rename_i h
    rw [taFlags_setTaFlag]
    show (taFlags s.ta ||| _) &&& _ ≠ 0 ↔ _
    rw [or_and_of_and_zero (by decide), hta]
    exact iff_of_false (fun hne => hne rfl) (fun hc => hc.1 h)
  · rename_i h
    have ht : taFlags (tasn_window_full seg (tasn_window_update seg (tasn_keep_alive seg
        (tasn_lost seg (tasn_zero_window seg (tasn_base seg s)))))).ta &&&
        TCP_A_DUPLICATE_ACK = 0 := by
      rw [tasn_window_full_and _ _ _ (by decide), tasn_window_update_and _ _ _ (by decide),
        tasn_keep_alive_and _ _ _ (by decide), tasn_lost_and _ _ _ (by decide),
        tasn_zero_window_and _ _ _ (by decide)]
      show taFlags s.ta &&& TCP_A_DUPLICATE_ACK = 0
      rw [hta]
      rfl
    have hm := tasn_ackish_dup_hasflag seg (tasn_window_full seg (tasn_window_update seg
      (tasn_keep_alive seg (tasn_lost seg (tasn_zero_window seg (tasn_base seg s)))))) ht
    unfold taHasFlag at hm
    exact hm.trans (Iff.intro (fun hc => ⟨h, hc⟩) (fun hc => hc.2))

/-- Claim C8 (amended): a duplicate ACK is counted — `dupacknum` incremented
and the flag set — exactly when the zero-length equality test holds and none
of the zero-window-probe / keep-alive-ACK / zero-window-probe-ACK
short-circuits fired, and `dupacknum` resets to 0 whenever the ack differs
from the recorded `lastack`; in the claim's scenario the repeated 50-byte
segments are plain retransmissions and never duplicate ACKs (the test needs a
zero-length segment), while zero-length repeats of the same ack are counted,
the first with `dupack_num = 1` referencing the frame where the ack last
changed. -/
theorem c8_duplicate_ack (ctx : SeqAnalysisCtx) (seg : Seg) (s : SeqAnalysisState)
    (hta : s.ta = none) :
    (tcp_analyze_sequence_number ctx seg s).fwd.seqinfo.dupacknum =
      (if seg.ack ≠ s.fwd.seqinfo.lastack then 0
       else if ¬ zwpCond seg s ∧ ¬ kaAckCond seg s ∧ ¬ zwpAckCond seg s ∧
           dupEqCond seg s then s.fwd.seqinfo.dupacknum + 1
       else s.fwd.seqinfo.dupacknum) ∧
    (taHasFlag (tcp_analyze_sequence_number ctx seg s).ta TCP_A_DUPLICATE_ACK ↔
      ¬ zwpCond seg s ∧ ¬ kaAckCond seg s ∧ ¬ zwpAckCond seg s ∧
        dupEqCond seg s) ∧
    (taFlags c8St2.ta &&& TCP_A_DUPLICATE_ACK = 0 ∧
      taFlags c8St3.ta &&& TCP_A_DUPLICATE_ACK = 0 ∧
      taFlags c8St2.ta &&& TCP_A_RETRANSMISSION = TCP_A_RETRANSMISSION ∧
      taFlags c8St3.ta &&& TCP_A_RETRANSMISSION = TCP_A_RETRANSMISSION ∧
      taFlags c8AckSt2.ta &&& TCP_A_DUPLICATE_ACK = TCP_A_DUPLICATE_ACK ∧
      (c8AckSt2.ta.getD {}).dupack_num = 1 ∧
      (c8AckSt2.ta.getD {}).dupack_frame = 1 ∧
      (c8AckSt3.ta.getD {}).dupack_num = 2) := by
  have hl : (tasn_classify seg (tasn_base seg s)).fwd.seqinfo.lastack =
      s.fwd.seqinfo.lastack := by
    unfold tasn_classify
    split <;> rfl
  have hd : (tasn_classify seg (tasn_base seg s)).fwd.seqinfo.dupacknum =
      (if ¬ zwpCond seg s ∧ ¬ kaAckCond seg s ∧ ¬ zwpAckCond seg s ∧
          dupEqCond seg s then s.fwd.seqinfo.dupacknum + 1
       else s.fwd.seqinfo.dupacknum) := by
    unfold tasn_classify
    split
    · rename_i h
      rw [if_neg (fun hc => hc.1 h)]
      rfl
    · rename_i h
      show (if ¬ kaAckCond seg s ∧ ¬ zwpAckCond seg s ∧ dupEqCond seg s then
          s.fwd.seqinfo.dupacknum + 1 else s.fwd.seqinfo.dupacknum) = _
      by_cases hc : ¬ kaAckCond seg s ∧ ¬ zwpAckCond seg s ∧ dupEqCond seg s
      · rw [if_pos hc, if_pos ⟨h, hc⟩]
      · rw [if_neg hc, if_neg (fun hh => hc hh.2)]
  refine ⟨?_, run_dupack_flag ctx seg s hta, by decide⟩
  show (if seg.ack ≠ (tasn_classify seg (tasn_base seg s)).fwd.seqinfo.lastack then 0
    else (tasn_classify seg (tasn_base seg s)).fwd.seqinfo.dupacknum) = _
  simp only [hl, hd]

/-- Witness for claim C8 at the first zero-length duplicate ACK. -/
theorem c8_duplicate_ack_witness :
    (tcp_analyze_sequence_number ctxBase c8AckSeg2
      ⟨c8St1.fwd, c8St1.rev, none⟩).fwd.seqinfo.dupacknum =
      (if c8AckSeg2.ack ≠ (⟨c8St1.fwd, c8St1.rev, none⟩ :
          SeqAnalysisState).fwd.seqinfo.lastack then 0
       else if ¬ zwpCond c8AckSeg2 ⟨c8St1.fwd, c8St1.rev, none⟩ ∧
          ¬ kaAckCond c8AckSeg2 ⟨c8St1.fwd, c8St1.rev, none⟩ ∧
          ¬ zwpAckCond c8AckSeg2 ⟨c8St1.fwd, c8St1.rev, none⟩ ∧
          dupEqCond c8AckSeg2 ⟨c8St1.fwd, c8St1.rev, none⟩ then
         (⟨c8St1.fwd, c8St1.rev, none⟩ :
           SeqAnalysisState).fwd.seqinfo.dupacknum + 1
       else (⟨c8St1.fwd, c8St1.rev, none⟩ :
         SeqAnalysisState).fwd.seqinfo.dupacknum) ∧
    (taHasFlag (tcp_analyze_sequence_number ctxBase c8AckSeg2
        ⟨c8St1.fwd, c8St1.rev, none⟩).ta TCP_A_DUPLICATE_ACK ↔
      ¬ zwpCond c8AckSeg2 ⟨c8St1.fwd, c8St1.rev, none⟩ ∧
      ¬ kaAckCond c8AckSeg2 ⟨c8St1.fwd, c8St1.rev, none⟩ ∧
      ¬ zwpAckCond c8AckSeg2 ⟨c8St1.fwd, c8St1.rev, none⟩ ∧
      dupEqCond c8AckSeg2 ⟨c8St1.fwd, c8St1.rev, none⟩) ∧
    (taFlags c8St2.ta &&& TCP_A_DUPLICATE_ACK = 0 ∧
      taFlags c8St3.ta &&& TCP_A_DUPLICATE_ACK = 0 ∧
      taFlags c8St2.ta &&& TCP_A_RETRANSMISSION = TCP_A_RETRANSMISSION ∧
      taFlags c8St3.ta &&& TCP_A_RETRANSMISSION = TCP_A_RETRANSMISSION ∧
      taFlags c8AckSt2.ta &&& TCP_A_DUPLICATE_ACK = TCP_A_DUPLICATE_ACK ∧
      (c8AckSt2.ta.getD {}).dupack_num = 1 ∧
      (c8AckSt2.ta.getD {}).dupack_frame = 1 ∧
      (c8AckSt3.ta.getD {}).dupack_num = 2) :=
  c8_duplicate_ack ctxBase c8AckSeg2 ⟨c8St1.fwd, c8St1.rev, none⟩ rfl

/-- Counterexample to claim C8 as stated: in the claim's scenario the third
occurrence of the 50-byte segment carries no duplicate-ACK flag at all (its
`dupack_num` stays 0), because a duplicate ACK requires a zero-length
segment; the code classifies it as a plain retransmission instead. -/
theorem c8_counterexample :
    taFlags c8St3.ta &&& TCP_A_DUPLICATE_ACK = 0 ∧
    (c8St3.ta.getD {}).dupack_num = 0 ∧
    taFlags c8St3.ta &&& TCP_A_RETRANSMISSION = TCP_A_RETRANSMISSION := by
  exact ⟨by decide, by decide, by decide⟩

/-! ## Bytes-in-flight attachment (claim C10) -/

lemma taBytes_setTaFlag (ta : Option TcpAcked) (f : Nat) :
    taBytes (setTaFlag ta f) = taBytes ta := by
  cases ta <;> rfl

lemma tasn_zero_window_bytes (seg : Seg) (s : SeqAnalysisState) :
    taBytes (tasn_zero_window seg s).ta = taBytes s.ta := by
  unfold tasn_zero_window
  split <;> (first | rfl | exact taBytes_setTaFlag _ _)

lemma tasn_lost_bytes (seg : Seg) (s : SeqAnalysisState) :
    taBytes (tasn_lost seg s).ta = taBytes s.ta := by
  unfold tasn_lost
  split <;> (first | rfl | exact taBytes_setTaFlag _ _)

lemma tasn_keep_alive_bytes (seg : Seg) (s : SeqAnalysisState) :
    taBytes (tasn_keep_alive seg s).ta = taBytes s.ta := by
  unfold tasn_keep_alive
  split <;> (first | rfl | exact taBytes_setTaFlag _ _)

lemma tasn_window_update_bytes (seg : Seg) (s : SeqAnalysisState) :
    taBytes (tasn_window_update seg s).ta = taBytes s.ta := by
  unfold tasn_window_update
  split <;> (first | rfl | exact taBytes_setTaFlag _ _)

lemma tasn_window_full_bytes (seg : Seg) (s : SeqAnalysisState) :
    taBytes (tasn_window_full seg s).ta = taBytes s.ta := by
  unfold tasn_window_full
  repeat' split
  all_goals first | rfl | exact taBytes_setTaFlag _ _

lemma tasn_ackish_bytes (seg : Seg) (s : SeqAnalysisState) :
    taBytes (tasn_ackish seg s).ta = taBytes s.ta := by
  unfold tasn_ackish
  repeat' split
  all_goals first | rfl | exact taBytes_setTaFlag _ _ | (cases s.ta <;> rfl)

lemma tasn_classify_bytes (seg : Seg) (s : SeqAnalysisState) :
    taBytes (tasn_classify seg s).ta = taBytes s.ta := by
  unfold tasn_classify
  split
  · exact taBytes_setTaFlag _ _
  · rw [tasn_ackish_bytes, tasn_window_full_bytes, tasn_window_update_bytes,
      tasn_keep_alive_bytes, tasn_lost_bytes, tasn_zero_window_bytes]

lemma tasn_ack_lost_bytes (seg : Seg) (s : SeqAnalysisState) :
    taBytes (tasn_ack_lost seg s).ta = taBytes s.ta := by
  unfold tasn_ack_lost
  split <;> (first | rfl | exact taBytes_setTaFlag _ _)

lemma tasn_retrans_bytes (ctx : SeqAnalysisCtx) (seg : Seg) (s : SeqAnalysisState) :
    taBytes (tasn_retrans ctx seg s).ta = taBytes s.ta := by
  unfold tasn_retrans tasn_retrans_ta
  repeat' split
  all_goals first | rfl | exact taBytes_setTaFlag _ _ | (cases s.ta <;> rfl)

lemma tasn_walk_bytes (seg : Seg) (scps : Bool) (l : List TcpUnacked)
    (ta : Option TcpAcked) (msa : Nat) :
    taBytes (tasn_walk seg scps l ta msa).2.1 = taBytes ta := by
  induction l generalizing ta msa with
  | nil => rfl
  | cons e rest ih =>
    show taBytes (tasn_walk seg scps (e :: rest) ta msa).2.1 = taBytes ta
    unfold tasn_walk
    split
    · exact (ih _ _).trans (by cases ta <;> rfl)
    · split
      · exact ih _ _
      · split
        · exact ih _ _
        · exact ih _ _

lemma tasn_ack_walk_bytes (seg : Seg) (s : SeqAnalysisState) :
    taBytes (tasn_ack_walk seg s).ta = taBytes s.ta := by
  show taBytes (tasn_walk seg s.rev.scps_capable s.rev.seqinfo.segments s.ta
    s.fwd.maxsizeacked).2.1 = taBytes s.ta
  exact tasn_walk_bytes _ _ _ _ _

lemma tasn_mid_bytes (ctx : SeqAnalysisCtx) (seg : Seg) (s : SeqAnalysisState)
    (hta : s.ta = none) : taBytes (tasn_mid ctx seg s).ta = 0 := by
  show taBytes (tasn_ack_walk seg (tasn_update seg (tasn_pre_update ctx seg s))).ta = 0
  rw [tasn_ack_walk_bytes]
  show taBytes (tasn_pre_update ctx seg s).ta = 0
  unfold tasn_pre_update
  rw [tasn_retrans_bytes, tasn_ack_lost_bytes]
  show taBytes (tasn_classify seg (tasn_base seg s)).ta = 0
  rw [tasn_classify_bytes]
  show taBytes s.ta = 0
  rw [hta]
  rfl

/-- Claim C10: a bytes-in-flight value is attached to a packet's analysis
result only when tracking is enabled, the segment carries payload, the forward
unacked list (as it stands when the block runs) is non-empty and `valid_bif`
holds, and the estimate `max(nextseq) - min(seq)` over the unacked entries is
strictly between 0 and 2000000000; in particular a zero-length packet never
carries one, while the claim's data packet on a fresh flow gets estimate 50. -/
theorem c10_bytes_in_flight (ctx : SeqAnalysisCtx) (seg : Seg)
    (s : SeqAnalysisState) (hta : s.ta = none) :
    (taBytes (tcp_analyze_sequence_number ctx seg s).ta =
      (if bifCond ctx seg (tasn_mid ctx seg s) then
        (if 0 < bifEstimate (tasn_mid ctx seg s).fwd.base_seq
              (tasn_mid ctx seg s).fwd.seqinfo.segments ∧
            bifEstimate (tasn_mid ctx seg s).fwd.base_seq
              (tasn_mid ctx seg s).fwd.seqinfo.segments < 2000000000 then
          bifEstimate (tasn_mid ctx seg s).fwd.base_seq
            (tasn_mid ctx seg s).fwd.seqinfo.segments
        else 0)
      else 0)) ∧
    (seg.seglen = 0 → taBytes (tcp_analyze_sequence_number ctx seg s).ta = 0) ∧
    taBytes (tcp_analyze_sequence_number c10Ctx c10Seg stFresh).ta = 50 := by
  have hb := tasn_mid_bytes ctx seg s hta
  have part1 : taBytes (tcp_analyze_sequence_number ctx seg s).ta =
      (if bifCond ctx seg (tasn_mid ctx seg s) then
        (if 0 < bifEstimate (tasn_mid ctx seg s).fwd.base_seq
              (tasn_mid ctx seg s).fwd.seqinfo.segments ∧
            bifEstimate (tasn_mid ctx seg s).fwd.base_seq
              (tasn_mid ctx seg s).fwd.seqinfo.segments < 2000000000 then
          bifEstimate (tasn_mid ctx seg s).fwd.base_seq
            (tasn_mid ctx seg s).fwd.seqinfo.segments
        else 0)
      else 0) := by
    show taBytes (tasn_bif ctx seg (tasn_mid ctx seg s)).ta = _
    unfold tasn_bif
    by_cases h : bifCond ctx seg (tasn_mid ctx seg s)
    · simp only [if_pos h]
      by_cases hc : 0 < bifEstimate (tasn_mid ctx seg s).fwd.base_seq
            (tasn_mid ctx seg s).fwd.seqinfo.segments ∧
          bifEstimate (tasn_mid ctx seg s).fwd.base_seq
            (tasn_mid ctx seg s).fwd.seqinfo.segments < 2000000000
      · simp only [if_pos hc]
        rfl
      · simp only [if_neg hc]
        exact hb
    · simp only [if_neg h]
      exact hb
  refine ⟨part1, fun h0 => ?_, by decide⟩
  rw [part1, if_neg (fun hh => hh.2.1 h0)]

/-- Witness for claim C10: a pure ACK never carries bytes-in-flight even with
unacked data outstanding, and the fresh-flow data packet carries estimate 50. -/
theorem c10_bytes_in_flight_witness :
    taBytes (tcp_analyze_sequence_number c10Ctx c8AckSeg2
      ⟨c8St1.fwd, c8St1.rev, none⟩).ta = 0 ∧
    taBytes (tcp_analyze_sequence_number c10Ctx c10Seg stFresh).ta = 50 :=
  ⟨(c10_bytes_in_flight c10Ctx c8AckSeg2 ⟨c8St1.fwd, c8St1.rev, none⟩ rfl).2.1
      (by decide),
    (c10_bytes_in_flight c10Ctx c10Seg stFresh rfl).2.2⟩

/-- Claim C2: a segment whose `seq` keys an existing MSP, whose end stays
within that MSP's `nxtpdu`, with the MSP's first segment known and the current
frame none of the MSP's `first_frame`, `first_frame_with_seq` or `last_frame`,
is reported as already-reassembled retransmitted data: the subdissector is not
invoked and the per-flow `multisegment_pdus` index is returned unchanged. -/
theorem c2_duplicate_idempotent (env : DesegEnv) (num : Nat) (abs_ts : NsTime)
    (seq nxtseq : Nat) (flow : TcpFlow) (msp : TcpMultisegmentPdu)
    (hfind : wmem_tree_lookup32 flow.multisegment_pdus seq = some msp)
    (hcov : nxtseq ≤ msp.nxtpdu)
    (hmiss : msp.flags &&& MSP_FLAGS_MISSING_FIRST_SEGMENT = 0)
    (hff : msp.first_frame ≠ num) (hffs : msp.first_frame_with_seq ≠ num)
    (hlf : msp.last_frame ≠ num) :
    desegment_tcp_decide env num abs_ts seq nxtseq flow =
      { action := .alreadyReassembled true, mpdus := flow.multisegment_pdus } := by
  have hb : ¬ (msp.first_frame = num ∨ msp.first_frame_with_seq = num) :=
    fun h => h.elim (fun h1 => hff h1) (fun h2 => hffs h2)
  unfold desegment_tcp_decide
  simp only [hfind]
  rw [if_pos ⟨hcov, hmiss, hlf⟩, decide_eq_true hb]

/-- Witness for claim C2: frame 12 re-delivers bytes 1000-1299 of an MSP fully
reassembled in frames 5-9; the call reports a retransmission and leaves the
index alone. -/
theorem c2_duplicate_idempotent_witness :
    desegment_tcp_decide c2Env 12 ⟨0, 0⟩ 1000 1300 c2Flow =
      { action := .alreadyReassembled true, mpdus := c2Flow.multisegment_pdus } :=
  c2_duplicate_idempotent c2Env 12 ⟨0, 0⟩ 1000 1300 c2Flow c2Msp (by decide)
    (by decide) (by decide) (by decide) (by decide) (by decide)

/-- Claim C7: on a flow flagged reassemble-until-FIN, a FIN-bearing segment
whose frame is the first FIN seen (or the recorded one re-visited) records the
frame as the flow's FIN and delivers the reassembled stream exactly when an
MSP exists at or before `seq - 1` and the fragment table completed on this
frame; a FIN in any other frame is reported as a retransmission of the final
FIN and nothing is delivered. -/
theorem c7_fin_reassembly (flags num seq : Nat) (flow : TcpFlow) (fc : Bool)
    (hfin : flags &&& TH_FIN ≠ 0)
    (hflow : flow.flow_flags &&& TCP_FLOW_REASSEMBLE_UNTIL_FIN ≠ 0) :
    ((flow.fin = 0 ∨ flow.fin = num) →
      dissect_tcp_fin_check true flags num seq flow fc =
        { fin := num,
          delivered := ((wmem_tree_lookup32_le flow.multisegment_pdus
            (sub32 seq 1)).isSome && fc),
          finRetransReported := false }) ∧
    (flow.fin ≠ 0 → flow.fin ≠ num →
      dissect_tcp_fin_check true flags num seq flow fc =
        { fin := flow.fin, delivered := false, finRetransReported := true }) := by
  constructor
  · intro h1
    unfold dissect_tcp_fin_check
    rw [if_pos ⟨rfl, hfin, hflow⟩, if_pos h1]
    cases hl : wmem_tree_lookup32_le flow.multisegment_pdus (sub32 seq 1) with
    | none => simp only [hl]; rfl
    | some p => simp only [hl]; rfl
  · intro h2 h3
    unfold dissect_tcp_fin_check
    rw [if_pos ⟨rfl, hfin, hflow⟩, if_neg (fun hh => hh.elim h2 h3)]

/-- Witness for claim C7: frame 10 carries the first FIN at `seq = 2500` on a
flow holding a completed MSP at 2000 and is delivered; on the flow whose FIN
was already recorded in frame 4 the same segment is reported as a
retransmitted FIN. -/
theorem c7_fin_reassembly_witness :
    dissect_tcp_fin_check true TH_FIN 10 2500 c7Flow true =
      { fin := 10,
        delivered := ((wmem_tree_lookup32_le c7Flow.multisegment_pdus
          (sub32 2500 1)).isSome && true),
        finRetransReported := false } ∧
    dissect_tcp_fin_check true TH_FIN 10 2500 c7FlowFin true =
      { fin := c7FlowFin.fin, delivered := false, finRetransReported := true } :=
  ⟨(c7_fin_reassembly TH_FIN 10 2500 c7Flow true (by decide) (by decide)).1
      (Or.inl (by decide)),
    (c7_fin_reassembly TH_FIN 10 2500 c7FlowFin true (by decide) (by decide)).2
      (by decide) (by decide)⟩

/-! ## Termination and offset monotonicity of the PDU loop (claim C9) -/

lemma pdus_loop_terminates (ctx : PduCtx) (gpl : Int → Nat) (fuel : Nat)
    (off : Int) (hf : (ctx.reportedLen - off).toNat < fuel) :
    (tcp_dissect_pdus_loop ctx gpl fuel off).2 = true := by
  induction fuel generalizing off with
  | zero => exact absurd hf (Nat.not_lt_zero _)
  | succ n ih =>
    unfold tcp_dissect_pdus_loop
    split
    · split
      · rfl
      · split
        · rfl
        · split
          · rfl
          · split
            · rfl
            · split
              · rfl
              · split
                · rfl
                · show (tcp_dissect_pdus_loop ctx gpl n
                    (wrapAddInt32 off (w32 (gpl off)))).2 = true
                  apply ih
                  omega
    · rfl

lemma pdus_offsets_lb (ctx : PduCtx) (gpl : Int → Nat) (fuel : Nat)
    (off x : Int)
    (hx : x ∈ dissectedOffsets (tcp_dissect_pdus_loop ctx gpl fuel off).1) :
    off ≤ x := by
  induction fuel generalizing off with
  | zero => exact absurd hx (List.not_mem_nil x)
  | succ n ih =>
    unfold tcp_dissect_pdus_loop at hx
    split at hx
    · split at hx
      · exact absurd hx (List.not_mem_nil x)
      · split at hx
        · exact absurd hx (List.not_mem_nil x)
        · split at hx
          · exact absurd hx (List.not_mem_nil x)
          · split at hx
            · exact absurd hx (List.not_mem_nil x)
            · split at hx
              · exact absurd hx (List.not_mem_nil x)
              · split at hx
                · have hx' : x ∈ [off] := hx
                  rcases List.mem_singleton.mp hx' with rfl
                  exact le_refl x
                · have hx' : x ∈ off :: dissectedOffsets (tcp_dissect_pdus_loop
                      ctx gpl n (wrapAddInt32 off (w32 (gpl off)))).1 := hx
                  cases hx' with
                  | head => exact le_rfl
                  | tail _ hm =>
                    have := ih _ hm
                    omega
    · exact absurd hx (List.not_mem_nil x)

lemma pdus_offsets_pairwise (ctx : PduCtx) (gpl : Int → Nat) (fuel : Nat)
    (off : Int) :
    (dissectedOffsets (tcp_dissect_pdus_loop ctx gpl fuel off).1).Pairwise
      (· < ·) := by
  induction fuel generalizing off with
  | zero => exact List.Pairwise.nil
  | succ n ih =>
    unfold tcp_dissect_pdus_loop
    split
    · split
      · exact List.Pairwise.nil
      · split
        · exact List.Pairwise.nil
        · split
          · exact List.Pairwise.nil
          · split
            · exact List.Pairwise.nil
            · split
              · exact List.Pairwise.nil
              · split
                · exact List.Pairwise.cons
                    (fun y hy => absurd hy (List.not_mem_nil y))
                    List.Pairwise.nil
                · show List.Pairwise (· < ·) (off :: dissectedOffsets
                    (tcp_dissect_pdus_loop ctx gpl n
                      (wrapAddInt32 off (w32 (gpl off)))).1)
                  refine List.Pairwise.cons (fun y hy => ?_) (ih _)
                  have := pdus_offsets_lb ctx gpl n _ y hy
                  omega
    · exact List.Pairwise.nil

/-- Claim C9: when the loop body at `off` reaches the dissect step and the
32-bit sum `off + plen` fails to move forward, the loop emits that one PDU and
stops instead of re-dissecting; with the standing fuel the whole loop always
finishes, and the offsets of the PDUs it dissects are strictly increasing. -/
theorem c9_offset_monotone (ctx : PduCtx) (gpl : Int → Nat) (off : Int)
    (h1 : ctx.reportedLen - off > 0)
    (h2 : ¬ ctx.capturedLen - off ≤ 0)
    (h3 : ¬ (ctx.proto_desegment ∧ ctx.can_desegment ∧
      ctx.capturedLen - off < (ctx.fixed_len : Int)))
    (h4 : ¬ w32 (gpl off) = 0)
    (h5 : ¬ w32 (gpl off) < ctx.fixed_len)
    (h6 : ¬ (ctx.proto_desegment ∧ ctx.can_desegment ∧
      ctx.capturedLen - off < (w32 (gpl off) : Int)))
    (h7 : wrapAddInt32 off (w32 (gpl off)) ≤ off) (fuel : Nat) :
    tcp_dissect_pdus_loop ctx gpl (fuel + 1) off =
      ([.dissected off (w32 (gpl off))], true) ∧
    (tcp_dissect_pdus ctx gpl).2 = true ∧
    (dissectedOffsets (tcp_dissect_pdus ctx gpl).1).Pairwise (· < ·) := by
  refine ⟨?_, ?_, ?_⟩
  · unfold tcp_dissect_pdus_loop
    rw [if_pos h1, if_neg h2, if_neg h3, if_neg h4, if_neg h5, if_neg h6,
      if_pos h7]
  · show (tcp_dissect_pdus_loop ctx gpl (ctx.reportedLen.toNat + 1) 0).2 = true
    apply pdus_loop_terminates
    omega
  · show (dissectedOffsets (tcp_dissect_pdus_loop ctx gpl
      (ctx.reportedLen.toNat + 1) 0).1).Pairwise (· < ·)
    exact pdus_offsets_pairwise ctx gpl _ 0

/-- Witness for claim C9: with a declared PDU length of `2^32 - 5` the 32-bit
next offset from 5 wraps to -5, so the loop stops after that one PDU. -/
theorem c9_offset_monotone_witness :
    tcp_dissect_pdus_loop c9Ctx c9Gpl 1 5 =
      ([.dissected 5 (w32 (c9Gpl 5))], true) ∧
    (tcp_dissect_pdus c9Ctx c9Gpl).2 = true ∧
    (dissectedOffsets (tcp_dissect_pdus c9Ctx c9Gpl).1).Pairwise (· < ·) :=
  c9_offset_monotone c9Ctx c9Gpl 5 (by decide) (by decide) (by decide)
    (by decide) (by decide) (by decide) (by decide) 0

/-- Claim C5: `mptcp_cryptodata_sha1` is a pure function of the key — for any
digest function it returns the first 4 digest bytes big-endian as the token
and the last 8 digest bytes big-endian as the IDSN, identical keys give
identical pairs, and the hashed message is exactly the 8-byte big-endian
encoding of the key (decoding it back yields `key mod 2^64`). -/
theorem c5_token_idsn (sha1 : List Nat → List Nat) (k k2 : Nat) :
    mptcp_cryptodata_sha1 sha1 k =
      (pntohN ((sha1 (phton64 k)).take 4),
        pntohN ((sha1 (phton64 k)).drop (HASH_SHA1_LENGTH - 8))) ∧
    (k = k2 → mptcp_cryptodata_sha1 sha1 k = mptcp_cryptodata_sha1 sha1 k2) ∧
    pntohN (phton64 k) = k % 2 ^ 64 := by
  refine ⟨rfl, fun h => h ▸ rfl, ?_⟩
  show pntohN (phton64 k) = k % 2 ^ 64
  simp only [phton64, pntohN, List.length_cons, List.length_nil]
  norm_num
  omega

/-- Witness for claim C5 at key 5 with a fixed stand-in digest. -/
theorem c5_token_idsn_witness :
    (mptcp_cryptodata_sha1 c5Hash 5 =
      (pntohN ((c5Hash (phton64 5)).take 4),
        pntohN ((c5Hash (phton64 5)).drop (HASH_SHA1_LENGTH - 8))) ∧
      (5 = 5 → mptcp_cryptodata_sha1 c5Hash 5 = mptcp_cryptodata_sha1 c5Hash 5) ∧
      pntohN (phton64 5) = 5 % 2 ^ 64) ∧
    mptcp_cryptodata_sha1 c5Hash 5 = mptcp_cryptodata_sha1 c5Hash 5 :=
  ⟨c5_token_idsn c5Hash 5 5, (c5_token_idsn c5Hash 5 5).2.1 rfl⟩
